import Mathlib

/-!
Verification of the data consolidation and analytics pipeline of the
Porto de Santos berth hub (backend/server.py): the schedule consolidator
`DataConsolidationService.consolidate_vessel_data`, the conflict detector
`ConflictDetectionService.detect_berth_conflicts` and the KPI engine
`KPICalculationService.calculate_kpis`.

Modelling conventions.
* A Python `datetime` instant is modelled as a rational number of seconds
  (`ℚ`); `(a - b).total_seconds() / 60` becomes `(a - b) / 60`.
* A missing/None value is `Option.none`; Python truthiness of a string
  (None and "" falsy) is `truthy`; a `datetime` is always truthy, so
  `x or y` on optional datetimes is `Option.or`.
* Auto-generated values (`uuid.uuid4()`, `datetime.utcnow()`), the
  standard-library ISO-8601 parser `datetime.fromisoformat` and the
  process-seeded string `hash` are external to the repository; they are
  supplied through an explicit environment `Env`.  `uuid4` is modelled as
  `Env.freshId` applied to the index of the creation, `utcnow` as the
  single instant `Env.now`.
* Python exceptions that escape a function are modelled with
  `Except String`; `DataConsolidationService.consolidate_vessel_data`
  never catches the `ValueError` of `fromisoformat`, so it returns
  `Except String (List VesselSchedule)`.
* Python `int(x)` truncates toward zero (`pyInt`), and `h % 100` on a
  possibly negative hash is Python floor-mod (`Int.emod`).
-/

/-- Python truthiness of an optional string: `None` and `""` are falsy. -/
def truthy : Option String → Bool
  | none => false
  | some s => s != ""

/-- The timestamp preprocessing of server.py: `s.replace("Z", "+00:00")`
(Python `str.replace` replaces every occurrence, as does `String.replace`). -/
def pyZ (s : String) : String := String.replace s ("Z") ("+00:00")

/-- Python `int()` applied to a rational: truncation toward zero. -/
def pyInt (q : ℚ) : Int := Int.tdiv q.num (Int.ofNat q.den)

/-- First-occurrence deduplication with an accumulator of already seen keys. -/
def firstDedupAux (seen : List String) : List String → List String
  | [] => []
  | x :: xs =>
    if x ∈ seen then firstDedupAux seen xs
    else x :: firstDedupAux (x :: seen) xs

/-- Keep the first occurrence of every string, in order of first appearance
(the key order of a Python insertion-ordered dict built by repeated assignment). -/
def firstDedup (l : List String) : List String := firstDedupAux [] l

/-- Enum `StatusOperacao` of server.py. -/
inductive StatusOperacao where
  | planejado
  | em_andamento
  | concluido
  | cancelado
  | atraso
  | pendente
deriving DecidableEq, Repr

/-- Enum `PrioridadeRAP` of server.py. -/
inductive PrioridadeRAP where
  | imediata
  | preferencial
  | prioritaria
  | sequencial
deriving DecidableEq, Repr

/-- Model `TimestampInfo` of server.py (all three instants default to None). -/
structure TimestampInfo where
  estimado : Option ℚ := none
  real : Option ℚ := none
  registrado : Option ℚ := none
deriving DecidableEq, Repr

/-- Model `VesselSchedule` of server.py.  `latitude`/`longitude` (Python
floats) are modelled as exact rationals. -/
structure VesselSchedule where
  id : String
  identificador_navio : String
  nome_navio : Option String := none
  agencia_maritima : Option String := none
  terminal : Option String := none
  berco : Option String := none
  eta : TimestampInfo := {}
  etb : TimestampInfo := {}
  etd : TimestampInfo := {}
  ata : Option ℚ := none
  atb : Option ℚ := none
  atd : Option ℚ := none
  prioridade_rap : PrioridadeRAP := PrioridadeRAP.sequencial
  status : StatusOperacao := StatusOperacao.planejado
  tipo_operacao : Option String := none
  observacoes : Option String := none
  intercorrencias : Option String := none
  imo : Option String := none
  mmsi : Option String := none
  shipid : Option String := none
  latitude : Option ℚ := none
  longitude : Option ℚ := none
  created_at : ℚ
  updated_at : ℚ
deriving DecidableEq, Repr

/-- Model `ConflictAlert` of server.py. -/
structure ConflictAlert where
  id : String
  berco : String
  navios_conflito : List String
  tipo_conflito : String
  descricao : String
  tempo_overlap : Option Int := none
  created_at : ℚ
  resolvido : Bool := false
deriving DecidableEq, Repr

/-- Model `KPIMetrics` of server.py. -/
structure KPIMetrics where
  mae_eta : Option ℚ := none
  wb_ratio : Option ℚ := none
  rcj_reliability : Option ℚ := none
  periodo_inicio : ℚ
  periodo_fim : ℚ
  total_escalas : Nat := 0
deriving DecidableEq, Repr

/-- A terminal feed record (`terminal_data` items), fields as read by
`consolidate_vessel_data` via `.get`; absent keys are `none`. -/
structure TerminalRecord where
  identificadorNavio : Option String := none
  nomeTerminal : Option String := none
  tipoOperacao : Option String := none
  statusOperacao : Option String := none
  observacoes : Option String := none
  dataPrevistaAtracacao : Option String := none
  dataRealAtracacao : Option String := none
deriving DecidableEq, Repr

/-- A maritime agency feed record (`agencia_data` items). -/
structure AgenciaRecord where
  identificadorNavio : Option String := none
  nomeAgencia : Option String := none
deriving DecidableEq, Repr

/-- A pilotage feed record (`praticagem_data` items). -/
structure PraticagemRecord where
  identificadorNavio : Option String := none
  dataSolicitacao : Option String := none
  dataExecucao : Option String := none
  manobraTipo : Option String := none
  motivoIntercorrencia : Option String := none
deriving DecidableEq, Repr

/-- A port-authority feed record: `autoridade_data` is accepted and ignored
by `consolidate_vessel_data`, so its records carry no observable content. -/
abbrev AutoridadeRecord := Unit

/-- The external environment of the core: the fresh-uuid supply (indexed by
creation order), the current instant `datetime.utcnow()`, the standard
library ISO-8601 parser `datetime.fromisoformat` (`none` models a raised
`ValueError`) and the process-seeded Python string `hash`. -/
structure Env where
  freshId : Nat → String
  now : ℚ
  parse : String → Option ℚ
  strHash : String → Int

/-- `datetime.fromisoformat(s.replace("Z", "+00:00"))`: the parse failure
is an uncaught `ValueError`, modelled as `Except.error`. -/
def parseTs (env : Env) (s : String) : Except String ℚ :=
  match Env.parse env (pyZ s) with
  | some q => Except.ok q
  | none => Except.error (("Invalid isoformat string: ") ++ s)

/-- Status mapping `DataConsolidationService._map_status`; unmapped values
(including a missing status) default to `planejado`. -/
def map_status : Option String → StatusOperacao
  | some s =>
    if s = "concluida" then StatusOperacao.concluido
    else if s = "aguardando_navio" then StatusOperacao.pendente
    else if s = "cancelada" then StatusOperacao.cancelado
    else if s = "aguardando_documentacao" then StatusOperacao.pendente
    else if s = "concluida_com_atraso" then StatusOperacao.atraso
    else if s = "parcial" then StatusOperacao.em_andamento
    else StatusOperacao.planejado
  | none => StatusOperacao.planejado

/-- The `VesselSchedule(...)` constructor call of the terminal loop:
explicit arguments from the terminal record, every other field its model
default, `id`/`created_at`/`updated_at` from the environment. -/
def mkTerminalVessel (env : Env) (n : Nat) (vid : String) (t : TerminalRecord) :
    VesselSchedule :=
  { id := Env.freshId env n
    identificador_navio := vid
    terminal := TerminalRecord.nomeTerminal t
    tipo_operacao := TerminalRecord.tipoOperacao t
    status := map_status (TerminalRecord.statusOperacao t)
    observacoes := TerminalRecord.observacoes t
    created_at := Env.now env
    updated_at := Env.now env }

/-- `if terminal_item.get("dataPrevistaAtracacao"): vessel.etb.estimado = ...` -/
def applyEtb (env : Env) (t : TerminalRecord) (v : VesselSchedule) :
    Except String VesselSchedule :=
  match TerminalRecord.dataPrevistaAtracacao t with
  | some s =>
    if s != "" then
      match parseTs env s with
      | Except.ok q => Except.ok { v with etb := { v.etb with estimado := some q } }
      | Except.error e => Except.error e
    else Except.ok v
  | none => Except.ok v

/-- `if terminal_item.get("dataRealAtracacao"): vessel.atb = ...` -/
def applyAtb (env : Env) (t : TerminalRecord) (v : VesselSchedule) :
    Except String VesselSchedule :=
  match TerminalRecord.dataRealAtracacao t with
  | some s =>
    if s != "" then
      match parseTs env s with
      | Except.ok q => Except.ok { v with atb := some q }
      | Except.error e => Except.error e
    else Except.ok v
  | none => Except.ok v

/-- Build the schedule of one terminal record (creation plus the two
timestamp assignments, either of which may raise). -/
def stepTerminalVessel (env : Env) (n : Nat) (t : TerminalRecord) :
    Except String VesselSchedule :=
  match applyEtb env t
      (mkTerminalVessel env n (Option.getD ( TerminalRecord.identificadorNavio t) ("")) t) with
  | Except.ok v1 => applyAtb env t v1
  | Except.error e => Except.error e

/-- `vessels_dict[vessel_id] = vessel` on an insertion-ordered dict:
replace in place when the key exists, else append. -/
def upsertEntry (k : String) (v : VesselSchedule) :
    List (String × VesselSchedule) → List (String × VesselSchedule)
  | [] => [(k, v)]
  | e :: rest => if e.1 = k then (k, v) :: rest else e :: upsertEntry k v rest

/-- The terminal loop of `consolidate_vessel_data` (primary source):
records without a truthy vessel identifier are skipped via `continue`. -/
def processTerminal (env : Env) :
    Nat → List (String × VesselSchedule) → List TerminalRecord →
    Except String (List (String × VesselSchedule))
  | _, acc, [] => Except.ok acc
  | n, acc, t :: rest =>
    if truthy ( TerminalRecord.identificadorNavio t) then
      match stepTerminalVessel env n t with
      | Except.ok v =>
        processTerminal env (n + 1)
          (upsertEntry (Option.getD ( TerminalRecord.identificadorNavio t) ("")) v acc) rest
      | Except.error e => Except.error e
    else processTerminal env n acc rest

/-- One agency record: `if vessel_id in vessels_dict:` then overwrite
`agencia_maritima` with `agencia_item.get("nomeAgencia")`. -/
def applyAgencia (acc : List (String × VesselSchedule)) (a : AgenciaRecord) :
    List (String × VesselSchedule) :=
  match AgenciaRecord.identificadorNavio a with
  | none => acc
  | some i =>
    acc.map fun e =>
      if e.1 = i then (e.1, { e.2 with agencia_maritima := AgenciaRecord.nomeAgencia a })
      else e

/-- The agency enrichment loop. -/
def processAgencia :
    List (String × VesselSchedule) → List AgenciaRecord →
    List (String × VesselSchedule)
  | acc, [] => acc
  | acc, a :: rest => processAgencia (applyAgencia acc a) rest

/-- The hard-coded `sample_marine_data` table of `consolidate_vessel_data`:
imo, mmsi, shipid per known vessel identifier. -/
def sampleMarineData (k : String) : Option (String × String × String) :=
  if k = "LOG-IN-DISCOVERY" then some (("9506394"), ("710006293"), ("714410"))
  else if k = "MSC-MEDITERRANEAN" then some (("9400567"), ("710001234"), ("712345"))
  else if k = "MAERSK-SALVADOR" then some (("9350123"), ("710005678"), ("798765"))
  else if k = "MSC-SANTOS-001" then some (("9123456"), ("710001111"), ("701111"))
  else if k = "COSCO-BR-003" then some (("9234567"), ("710002222"), ("702222"))
  else if k = "HAMBURG-SANTOS-005" then some (("9345678"), ("710003333"), ("703333"))
  else none

/-- One entry of the MarineTraffic enrichment loop: for a known
identifier set imo/mmsi/shipid and coordinates derived from
`hash(vessel_id) % 100` (Python floor-mod on the process-seeded string
hash). -/
def marineEntry (env : Env) (e : String × VesselSchedule) :
    String × VesselSchedule :=
  match sampleMarineData e.1 with
  | none => e
  | some m =>
    let h : Int := Int.emod (Env.strHash env e.1) 100
    (e.1, { e.2 with
      imo := some m.1
      mmsi := some m.2.1
      shipid := some m.2.2
      latitude := some ((-23.9534 : ℚ) + (((h : ℚ) - 50) * (0.01 : ℚ)))
      longitude := some ((-46.3334 : ℚ) + (((h : ℚ) - 50) * (0.01 : ℚ))) })

/-- The MarineTraffic enrichment loop over the whole dict. -/
def applyMarine (env : Env) (acc : List (String × VesselSchedule)) :
    List (String × VesselSchedule) :=
  acc.map (marineEntry env)

/-- Does the dict contain the key (`vessel_id in vessels_dict`)? -/
def keyExists (acc : List (String × VesselSchedule)) (i : String) : Bool :=
  acc.any fun e => e.1 == i

/-- Point update of the entry at a key, the key itself unchanged. -/
def updateEntry (acc : List (String × VesselSchedule)) (i : String)
    (f : VesselSchedule → VesselSchedule) : List (String × VesselSchedule) :=
  acc.map fun e => if e.1 = i then (e.1, f e.2) else e

/-- `if praticagem_item.get("dataSolicitacao"): ... eta.registrado = ...` -/
def stepSolicitacao (env : Env) (i : String) (p : PraticagemRecord)
    (acc : List (String × VesselSchedule)) :
    Except String (List (String × VesselSchedule)) :=
  match PraticagemRecord.dataSolicitacao p with
  | some s =>
    if s != "" then
      match parseTs env s with
      | Except.ok q =>
        Except.ok (updateEntry acc i fun v => { v with eta := { v.eta with registrado := some q } })
      | Except.error e => Except.error e
    else Except.ok acc
  | none => Except.ok acc

/-- `if praticagem_item.get("dataExecucao"):` then set ATA when the
maneuver is "entrada", ATD when "saida"; the timestamp is only parsed
inside those two branches. -/
def stepExecucao (env : Env) (i : String) (p : PraticagemRecord)
    (acc : List (String × VesselSchedule)) :
    Except String (List (String × VesselSchedule)) :=
  match PraticagemRecord.dataExecucao p with
  | some s =>
    if s != "" then
      if PraticagemRecord.manobraTipo p = some ("entrada") then
        match parseTs env s with
        | Except.ok q => Except.ok (updateEntry acc i fun v => { v with ata := some q })
        | Except.error e => Except.error e
      else if PraticagemRecord.manobraTipo p = some ("saida") then
        match parseTs env s with
        | Except.ok q => Except.ok (updateEntry acc i fun v => { v with atd := some q })
        | Except.error e => Except.error e
      else Except.ok acc
    else Except.ok acc
  | none => Except.ok acc

/-- `if praticagem_item.get("motivoIntercorrencia"): ... intercorrencias = ...` -/
def stepIntercorrencia (i : String) (p : PraticagemRecord)
    (acc : List (String × VesselSchedule)) : List (String × VesselSchedule) :=
  match PraticagemRecord.motivoIntercorrencia p with
  | some s =>
    if s != "" then updateEntry acc i fun v => { v with intercorrencias := some s }
    else acc
  | none => acc

/-- One pilotage record: records whose identifier is absent or matches no
existing schedule are dropped without touching the dict. -/
def applyPraticagem (env : Env) (acc : List (String × VesselSchedule))
    (p : PraticagemRecord) : Except String (List (String × VesselSchedule)) :=
  match PraticagemRecord.identificadorNavio p with
  | none => Except.ok acc
  | some i =>
    if keyExists acc i then
      match stepSolicitacao env i p acc with
      | Except.error e => Except.error e
      | Except.ok acc1 =>
        match stepExecucao env i p acc1 with
        | Except.error e => Except.error e
        | Except.ok acc2 => Except.ok (stepIntercorrencia i p acc2)
    else Except.ok acc

/-- The pilotage enrichment loop. -/
def processPraticagem (env : Env) :
    List (String × VesselSchedule) → List PraticagemRecord →
    Except String (List (String × VesselSchedule))
  | acc, [] => Except.ok acc
  | acc, p :: rest =>
    match applyPraticagem env acc p with
    | Except.ok acc1 => processPraticagem env acc1 rest
    | Except.error e => Except.error e

/-- `DataConsolidationService.consolidate_vessel_data`: terminal loop,
agency loop, MarineTraffic enrichment, pilotage loop, then the dict's
values in insertion order.  `autoridade_data` is accepted but unused. -/
def consolidate_vessel_data (env : Env) (agencia_data : List AgenciaRecord)
    (praticagem_data : List PraticagemRecord) (terminal_data : List TerminalRecord)
    (autoridade_data : List AutoridadeRecord) :
    Except String (List VesselSchedule) :=
  match processTerminal env 0 [] terminal_data with
  | Except.error e => Except.error e
  | Except.ok d1 =>
    let d2 := processAgencia d1 agencia_data
    let d3 := applyMarine env d2
    match processPraticagem env d3 praticagem_data with
    | Except.error e => Except.error e
    | Except.ok d4 => Except.ok (d4.map Prod.snd)

/-- Participation filter of `detect_berth_conflicts`:
`if schedule.terminal and schedule.etb.estimado and schedule.etd.estimado`
(a non-empty terminal name and both estimated instants present). -/
def participates (s : VesselSchedule) : Bool :=
  truthy s.terminal && s.etb.estimado.isSome && s.etd.estimado.isSome

/-- The grouping key (`key = schedule.terminal`, a truthy string for every
participating schedule). -/
def termKey (s : VesselSchedule) : String := Option.getD s.terminal ("")

/-- Append a schedule to its group in an insertion-ordered grouping. -/
def groupAdd (k : String) (s : VesselSchedule) :
    List (String × List VesselSchedule) → List (String × List VesselSchedule)
  | [] => [(k, [s])]
  | e :: rest => if e.1 = k then (e.1, e.2 ++ [s]) :: rest else e :: groupAdd k s rest

/-- The `berth_schedules` dict of `detect_berth_conflicts`: participating
schedules grouped by terminal, groups in first-appearance order. -/
def groupSchedules (acc : List (String × List VesselSchedule)) :
    List VesselSchedule → List (String × List VesselSchedule)
  | [] => acc
  | s :: rest =>
    if participates s then groupSchedules (groupAdd (termKey s) s acc) rest
    else groupSchedules acc rest

/-- The ordered pairs visited by the double loop
`for i, vessel1 in enumerate(...): for j, vessel2 in enumerate(...[i+1:], i+1)`. -/
def pairsOf : List VesselSchedule → List (VesselSchedule × VesselSchedule)
  | [] => []
  | x :: xs => xs.map (fun y => (x, y)) ++ pairsOf xs

/-- `vessel.etb.estimado or vessel.atb` (datetimes are always truthy). -/
def windowStart (s : VesselSchedule) : Option ℚ := Option.or s.etb.estimado s.atb

/-- `vessel.etd.estimado or vessel.atd`. -/
def windowEnd (s : VesselSchedule) : Option ℚ := Option.or s.etd.estimado s.atd

/-- `ConflictDetectionService._check_time_overlap`: overlap test
`v1_start < v2_end and v2_start < v1_end`, duration
`int((overlap_end - overlap_start).total_seconds() / 60)`.  The fresh
uuid of the alert is assigned afterwards by the caller model
(`detect_berth_conflicts`), indexed by creation order. -/
def check_time_overlap (env : Env) (v1 v2 : VesselSchedule) (berth : String) :
    Option ConflictAlert :=
  match windowStart v1, windowEnd v1, windowStart v2, windowEnd v2 with
  | some s1, some e1, some s2, some e2 =>
    if s1 < e2 ∧ s2 < e1 then
      let os := max s1 s2
      let oe := min e1 e2
      let om : Int := pyInt ((oe - os) / 60)
      some
        { id := ("")
          berco := berth
          navios_conflito :=
            [ VesselSchedule.identificador_navio v1, VesselSchedule.identificador_navio v2]
          tipo_conflito := ("overlap")
          descricao :=
            ("Conflito de atracação: ") ++ VesselSchedule.identificador_navio v1
              ++ (" e ") ++ VesselSchedule.identificador_navio v2
              ++ (" sobrepõem em ") ++ toString om ++ (" minutos")
          tempo_overlap := some om
          created_at := Env.now env
          resolvido := false }
    else none
  | _, _, _, _ => none

/-- Assign the fresh uuid of each alert, in creation order (`uuid.uuid4()`
is called once per constructed `ConflictAlert`). -/
def assignIds (env : Env) : Nat → List ConflictAlert → List ConflictAlert
  | _, [] => []
  | k, c :: rest => { c with id := Env.freshId env k } :: assignIds env (k + 1) rest

/-- `ConflictDetectionService.detect_berth_conflicts`: group participating
schedules by terminal, test every ordered pair within a group once, emit
one alert per overlapping pair; alert ids in creation order. -/
def detect_berth_conflicts (env : Env) (schedules : List VesselSchedule) :
    List ConflictAlert :=
  let groups := groupSchedules [] schedules
  let raw :=
    (groups.map fun g => (pairsOf g.2).filterMap fun pr =>
      check_time_overlap env pr.1 pr.2 g.1).flatten
  assignIds env 0 raw

/-- `s.ata or s.atb or s.eta.registrado or s.etb.estimado`: the
representative instant used by the KPI window filter. -/
def representative (s : VesselSchedule) : Option ℚ :=
  Option.or s.ata (Option.or s.atb (Option.or s.eta.registrado s.etb.estimado))

/-- `schedule_date and start_date <= schedule_date <= end_date`. -/
def isRelevant (start_date end_date : ℚ) (s : VesselSchedule) : Bool :=
  match representative s with
  | some d => decide (start_date ≤ d) && decide (d ≤ end_date)
  | none => false

/-- The MAE(ETA) contribution of one relevant schedule:
reference `eta.estimado or eta.registrado`; error against ATA when
present, else against ATB, in minutes. -/
def maeError (s : VesselSchedule) : Option ℚ :=
  match Option.or s.eta.estimado s.eta.registrado with
  | none => none
  | some e =>
    match s.ata with
    | some a => some (abs ((a - e) / 60))
    | none =>
      match s.atb with
      | some b => some (abs ((b - e) / 60))
      | none => none

/-- The W/B contribution of one relevant schedule: arrival
`ata or eta.registrado`, waiting and berthed times in minutes, kept when
`berthed_time > 0 and waiting_time >= 0`. -/
def wbContribution (s : VesselSchedule) : Option ℚ :=
  match Option.or s.ata s.eta.registrado, s.atb, s.atd with
  | some arr, some b, some d =>
    let waiting := (b - arr) / 60
    let berthed := (d - b) / 60
    if 0 < berthed ∧ 0 ≤ waiting then some (waiting / berthed) else none
  | _, _, _ => none

/-- Is the schedule an RCJ trial (`schedule.etb.estimado and schedule.atb`)? -/
def rcjTrial (s : VesselSchedule) : Bool :=
  s.etb.estimado.isSome && s.atb.isSome

/-- Is the schedule an RCJ success (a trial within plus/minus 30 minutes)? -/
def rcjSuccess (s : VesselSchedule) : Bool :=
  match s.etb.estimado, s.atb with
  | some e, some b => decide (abs ((b - e) / 60) ≤ 30)
  | _, _ => false

/-- `KPICalculationService.calculate_kpis`: window filter, MAE(ETA),
W/B ratio and RCJ reliability over the relevant schedules, each statistic
`None` when no schedule contributes. -/
def calculate_kpis (schedules : List VesselSchedule)
    (start_date end_date : ℚ) : KPIMetrics :=
  let relevant := schedules.filter (isRelevant start_date end_date)
  if relevant = [] then
    { mae_eta := none
      wb_ratio := none
      rcj_reliability := none
      periodo_inicio := start_date
      periodo_fim := end_date
      total_escalas := 0 }
  else
    let mae_errors := relevant.filterMap maeError
    let wb_ratios := relevant.filterMap wbContribution
    let rcj_total := relevant.countP rcjTrial
    let rcj_count := relevant.countP rcjSuccess
    { mae_eta :=
        if mae_errors = [] then none
        else some (List.sum mae_errors / (mae_errors.length : ℚ))
      wb_ratio :=
        if wb_ratios = [] then none
        else some (List.sum wb_ratios / (wb_ratios.length : ℚ))
      rcj_reliability :=
        if rcj_total = 0 then none
        else some ((rcj_count : ℚ) / (rcj_total : ℚ) * 100)
      periodo_inicio := start_date
      periodo_fim := end_date
      total_escalas := relevant.length }

/-- The window predicate spelled as in the specification: the first
defined instant among ATA, ATB, registered ETA, estimated ETB falls in
the closed window. -/
def relevantSpec (st en : ℚ) (s : VesselSchedule) : Bool :=
  match Option.or s.ata (Option.or s.atb (Option.or s.eta.registrado s.etb.estimado)) with
  | some d => decide (st ≤ d ∧ d ≤ en)
  | none => false

theorem relevantSpec_eq (st en : ℚ) : relevantSpec st en = isRelevant st en := by
  funext s
  unfold relevantSpec isRelevant representative
  cases Option.or s.ata (Option.or s.atb (Option.or s.eta.registrado s.etb.estimado)) with
  | none => rfl
  | some d => simp [Bool.decide_and]

/-- C1: a schedule is counted in `total_escalas` exactly when its
representative instant (ATA, else ATB, else registered ETA, else
estimated ETB) lies in the closed window `[start, end]`. -/
theorem c1_windowing_total_escalas (schedules : List VesselSchedule) (st en : ℚ) :
    KPIMetrics.total_escalas (calculate_kpis schedules st en)
      = List.countP (relevantSpec st en) schedules := by
  rw [relevantSpec_eq, List.countP_eq_length_filter]
  unfold calculate_kpis
  by_cases h : List.filter (isRelevant st en) schedules = [] <;> simp [h]

/-- The MAE(ETA) contribution spelled as in the specification: reference
is the estimated ETA if present else the registered ETA; the error is
against the actual arrival when defined, else against the actual
berthing. -/
def maeErrorSpec (s : VesselSchedule) : Option ℚ :=
  match Option.or s.eta.estimado s.eta.registrado, s.ata, s.atb with
  | some e, some a, _ => some (abs ((a - e) / 60))
  | some e, none, some b => some (abs ((b - e) / 60))
  | _, _, _ => none

theorem maeErrorSpec_eq : maeErrorSpec = maeError := by
  funext s
  unfold maeErrorSpec maeError
  cases Option.or s.eta.estimado s.eta.registrado with
  | none => rfl
  | some e =>
    cases s.ata with
    | some a => rfl
    | none => cases s.atb with
      | some b => rfl
      | none => rfl

/-- A single schedule with estimated ETA `T` and actual arrival
`T + 2046` minutes, used by the example of claim C5. -/
def maeExample (T : ℚ) : VesselSchedule :=
  { id := ("m")
    identificador_navio := ("MAE-1")
    eta := { estimado := some T }
    ata := some (T + 2046 * 60)
    created_at := 0
    updated_at := 0 }

/-- C5: over the relevant schedules MAE(ETA) is the mean of the
contributed absolute errors (reference: estimated ETA else registered
ETA; error against ATA, else against ATB), `None` when none contribute;
a single relevant schedule with estimated ETA `T` and actual arrival
`T + 2046` minutes yields MAE 2046. -/
theorem c5_mae_eta :
    (∀ (schedules : List VesselSchedule) (st en : ℚ),
      KPIMetrics.mae_eta (calculate_kpis schedules st en)
        = (if List.filterMap maeErrorSpec (List.filter (isRelevant st en) schedules) = []
           then none
           else some (List.sum (List.filterMap maeErrorSpec (List.filter (isRelevant st en) schedules))
             / ((List.filterMap maeErrorSpec (List.filter (isRelevant st en) schedules)).length : ℚ))))
    ∧ ∀ T : ℚ,
      KPIMetrics.mae_eta (calculate_kpis [maeExample T] T (T + 2046 * 60)) = some 2046 := by
  constructor
  · intro schedules st en
    rw [maeErrorSpec_eq]
    unfold calculate_kpis
    by_cases h : List.filter (isRelevant st en) schedules = [] <;> simp [h]
  · intro T
    have hrel : isRelevant T (T + 2046 * 60) (maeExample T) = true := by
      unfold isRelevant representative maeExample
      norm_num
    have herr : maeError (maeExample T) = some 2046 := by
      unfold maeError maeExample
      have h60 : (T + 2046 * 60 - T) / 60 = (2046 : ℚ) := by ring
      simp [Option.or, h60]
    have hfil : List.filter (isRelevant T (T + 2046 * 60)) [maeExample T]
        = [maeExample T] := by
      simp [List.filter, hrel]
    unfold calculate_kpis
    rw [hfil]
    simp [herr]

/-- The RCJ trial predicate spelled as in the specification. -/
def rcjTrialSpec (s : VesselSchedule) : Bool :=
  s.etb.estimado.isSome && s.atb.isSome

/-- The RCJ success predicate spelled as in the specification:
a trial whose berthing error is at most 30 minutes (boundary included). -/
def rcjSuccessSpec (s : VesselSchedule) : Bool :=
  match s.etb.estimado, s.atb with
  | some e, some b => decide (abs ((b - e) / 60) ≤ 30)
  | _, _ => false

/-- A schedule berthing `d` minutes away from its estimate, used by the
10-trial example of claim C6. -/
def rcjExample (d : ℚ) : VesselSchedule :=
  { id := ("r")
    identificador_navio := ("RCJ-1")
    etb := { estimado := some 0 }
    atb := some (d * 60)
    created_at := 0
    updated_at := 0 }

/-- C6: every relevant schedule with both estimated ETB and actual
berthing counts as an RCJ trial, a success exactly when the absolute
berthing error is at most 30 minutes; the reliability is
`100 * successes / trials`, undefined for zero trials; ten relevant
trials of which eight succeed yield 80. -/
theorem c6_rcj_reliability :
    (∀ (schedules : List VesselSchedule) (st en : ℚ),
      KPIMetrics.rcj_reliability (calculate_kpis schedules st en)
        = (if List.countP rcjTrialSpec (List.filter (isRelevant st en) schedules) = 0
           then none
           else some (100 * (List.countP rcjSuccessSpec (List.filter (isRelevant st en) schedules) : ℚ)
             / (List.countP rcjTrialSpec (List.filter (isRelevant st en) schedules) : ℚ))))
    ∧ KPIMetrics.rcj_reliability (calculate_kpis
        [rcjExample 0, rcjExample 10, rcjExample 20, rcjExample 30, rcjExample (-10),
         rcjExample (-20), rcjExample (-30), rcjExample 5, rcjExample 31, rcjExample 40]
        (-3000) 3000) = some 80 := by
  constructor
  · intro schedules st en
    have htr : rcjTrialSpec = rcjTrial := rfl
    have hsu : rcjSuccessSpec = rcjSuccess := rfl
    rw [htr, hsu]
    unfold calculate_kpis
    by_cases h : List.filter (isRelevant st en) schedules = []
    · simp [h]
    · simp only [h, if_false]
      by_cases h0 : List.countP rcjTrial (List.filter (isRelevant st en) schedules) = 0
      · simp [h0]
      · simp [h0]
        ring
  · have hrel : ∀ d : ℚ, -50 ≤ d → d ≤ 50 →
        isRelevant (-3000) 3000 (rcjExample d) = true := by
      intro d h1 h2
      unfold isRelevant representative rcjExample
      simp only [Option.or]
      rw [Bool.and_eq_true, decide_eq_true_eq, decide_eq_true_eq]
      constructor <;> nlinarith
    have hsucc : ∀ d : ℚ, rcjSuccess (rcjExample d) = decide (abs d ≤ 30) := by
      intro d
      unfold rcjSuccess rcjExample
      have h60 : (d * 60 - 0) / 60 = d := by ring
      simp [h60]
    have htrial : ∀ d : ℚ, rcjTrial (rcjExample d) = true := by
      intro d
      unfold rcjTrial rcjExample
      rfl
    unfold calculate_kpis
    have hfil : List.filter (isRelevant (-3000) 3000)
        [rcjExample 0, rcjExample 10, rcjExample 20, rcjExample 30, rcjExample (-10),
         rcjExample (-20), rcjExample (-30), rcjExample 5, rcjExample 31, rcjExample 40]
        = [rcjExample 0, rcjExample 10, rcjExample 20, rcjExample 30, rcjExample (-10),
           rcjExample (-20), rcjExample (-30), rcjExample 5, rcjExample 31, rcjExample 40] := by
      simp only [List.filter]
      rw [hrel 0 (by norm_num) (by norm_num), hrel 10 (by norm_num) (by norm_num),
        hrel 20 (by norm_num) (by norm_num), hrel 30 (by norm_num) (by norm_num),
        hrel (-10) (by norm_num) (by norm_num), hrel (-20) (by norm_num) (by norm_num),
        hrel (-30) (by norm_num) (by norm_num), hrel 5 (by norm_num) (by norm_num),
        hrel 31 (by norm_num) (by norm_num), hrel 40 (by norm_num) (by norm_num)]
    rw [hfil]
    have hcnt : List.countP rcjTrial
        [rcjExample 0, rcjExample 10, rcjExample 20, rcjExample 30, rcjExample (-10),
         rcjExample (-20), rcjExample (-30), rcjExample 5, rcjExample 31, rcjExample 40] = 10 := by
      simp [List.countP, List.countP.go, htrial]
    have hcs : List.countP rcjSuccess
        [rcjExample 0, rcjExample 10, rcjExample 20, rcjExample 30, rcjExample (-10),
         rcjExample (-20), rcjExample (-30), rcjExample 5, rcjExample 31, rcjExample 40] = 8 := by
      simp only [List.countP, List.countP.go, hsucc]
      norm_num [abs_le]
    simp [hcnt, hcs]
    norm_num

/-- A sample concrete environment used by witnesses. -/
def envW : Env :=
  { freshId := fun n => ("uuid-") ++ toString n
    now := 1000000
    parse := fun _ => some 0
    strHash := fun _ => 7 }

/-- C7: no core function raises on empty input: consolidating four empty
feeds returns an empty list, detecting conflicts on no schedules returns
no alerts, and the KPI engine on a schedule set with zero relevant
schedules returns count 0 with all three rates undefined. -/
theorem c7_empty_inputs :
    (∀ env : Env, consolidate_vessel_data env [] [] [] [] = Except.ok [])
    ∧ (∀ env : Env, detect_berth_conflicts env [] = [])
    ∧ ∀ (schedules : List VesselSchedule) (st en : ℚ),
        List.filter (isRelevant st en) schedules = [] →
        calculate_kpis schedules st en =
          { mae_eta := none
            wb_ratio := none
            rcj_reliability := none
            periodo_inicio := st
            periodo_fim := en
            total_escalas := 0 } := by
  refine ⟨fun env => rfl, fun env => rfl, fun schedules st en h => ?_⟩
  unfold calculate_kpis
  simp [h]

/-- Witness for C7 at concrete inputs. -/
theorem c7_empty_inputs_witness :
    consolidate_vessel_data envW [] [] [] [] = Except.ok []
    ∧ detect_berth_conflicts envW [] = []
    ∧ calculate_kpis [] 0 1 =
        { mae_eta := none
          wb_ratio := none
          rcj_reliability := none
          periodo_inicio := 0
          periodo_fim := 1
          total_escalas := 0 } :=
  ⟨c7_empty_inputs.1 envW, c7_empty_inputs.2.1 envW, c7_empty_inputs.2.2 [] 0 1 rfl⟩

/-- Evaluation of the detector on two participating schedules of the same
terminal: one alert exactly when the two half-open windows cross. -/
theorem detect_two_same_key (env : Env) (v1 v2 : VesselSchedule) (s1 e1 s2 e2 : ℚ)
    (p1 : participates v1 = true) (p2 : participates v2 = true)
    (hk : termKey v1 = termKey v2)
    (he1 : v1.etb.estimado = some s1) (hd1 : v1.etd.estimado = some e1)
    (he2 : v2.etb.estimado = some s2) (hd2 : v2.etd.estimado = some e2) :
    detect_berth_conflicts env [v1, v2]
      = if s1 < e2 ∧ s2 < e1 then
          [{ id := Env.freshId env 0
             berco := termKey v2
             navios_conflito :=
               [ VesselSchedule.identificador_navio v1, VesselSchedule.identificador_navio v2]
             tipo_conflito := ("overlap")
             descricao :=
               ("Conflito de atracação: ") ++ VesselSchedule.identificador_navio v1
                 ++ (" e ") ++ VesselSchedule.identificador_navio v2
                 ++ (" sobrepõem em ") ++ toString (pyInt ((min e1 e2 - max s1 s2) / 60))
                 ++ (" minutos")
             tempo_overlap := some (pyInt ((min e1 e2 - max s1 s2) / 60))
             created_at := Env.now env
             resolvido := false }]
        else [] := by
  have hs1 : windowStart v1 = some s1 := by simp [windowStart, he1, Option.or]
  have hw1 : windowEnd v1 = some e1 := by simp [windowEnd, hd1, Option.or]
  have hs2 : windowStart v2 = some s2 := by simp [windowStart, he2, Option.or]
  have hw2 : windowEnd v2 = some e2 := by simp [windowEnd, hd2, Option.or]
  by_cases hc : s1 < e2 ∧ s2 < e1
  · simp [detect_berth_conflicts, groupSchedules, p1, p2, groupAdd, hk,
      pairsOf, check_time_overlap, hs1, hw1, hs2, hw2, hc, assignIds]
  · simp [detect_berth_conflicts, groupSchedules, p1, p2, groupAdd, hk,
      pairsOf, check_time_overlap, hs1, hw1, hs2, hw2, hc, assignIds]

/-- The detector emits nothing on two schedules unless both participate
on the same terminal. -/
theorem detect_two_nil (env : Env) (v1 v2 : VesselSchedule)
    (h : participates v1 = false ∨ participates v2 = false ∨ termKey v1 ≠ termKey v2) :
    detect_berth_conflicts env [v1, v2] = [] := by
  by_cases h1 : participates v1 = true <;> by_cases h2 : participates v2 = true
  · rcases h with h | h | h
    · rw [h1] at h; exact absurd h (by simp)
    · rw [h2] at h; exact absurd h (by simp)
    · simp [detect_berth_conflicts, groupSchedules, h1, h2, groupAdd, pairsOf,
        assignIds, h]
  · simp [detect_berth_conflicts, groupSchedules, h1, h2, groupAdd, pairsOf, assignIds]
  · simp [detect_berth_conflicts, groupSchedules, h1, h2, groupAdd, pairsOf, assignIds]
  · simp [detect_berth_conflicts, groupSchedules, h1, h2, groupAdd, pairsOf, assignIds]

/-- A schedule on terminal T1 with estimated berthing `a` and estimated
departure `b`, used by the window examples of claims C3 and C10. -/
def mkConfSched (vid : String) (a b : ℚ) : VesselSchedule :=
  { id := ("c")
    identificador_navio := vid
    terminal := some ("T1")
    etb := { estimado := some a }
    etd := { estimado := some b }
    created_at := 0
    updated_at := 0 }

/-- C3 (amended): for two participating schedules on the same terminal an
alert is emitted iff `start1 < end2` and `start2 < end1` (touching
windows produce none), and its overlap duration is
`(min(end1,end2) - max(start1,start2))` in minutes truncated toward zero
(`pyInt`), which agrees with the floor whenever the overlap is
nonnegative; windows [10:00,12:00) and [12:00,14:00) yield no conflict,
[10:00,12:01) and [12:00,14:00) yield one conflict of 1 minute. -/
theorem c3_overlap_truncation :
    (∀ (env : Env) (v1 v2 : VesselSchedule) (s1 e1 s2 e2 : ℚ),
      participates v1 = true → participates v2 = true → termKey v1 = termKey v2 →
      v1.etb.estimado = some s1 → v1.etd.estimado = some e1 →
      v2.etb.estimado = some s2 → v2.etd.estimado = some e2 →
      ((detect_berth_conflicts env [v1, v2] ≠ [] ↔ (s1 < e2 ∧ s2 < e1))
        ∧ ∀ a ∈ detect_berth_conflicts env [v1, v2],
            ConflictAlert.tempo_overlap a = some (pyInt ((min e1 e2 - max s1 s2) / 60))))
    ∧ detect_berth_conflicts envW
        [mkConfSched ("V1") 36000 43200, mkConfSched ("V2") 43200 50400] = []
    ∧ List.map ConflictAlert.tempo_overlap
        (detect_berth_conflicts envW
          [mkConfSched ("V1") 36000 43260, mkConfSched ("V2") 43200 50400]) = [some 1] := by
  refine ⟨fun env v1 v2 s1 e1 s2 e2 p1 p2 hk he1 hd1 he2 hd2 => ?_, ?_, ?_⟩
  · rw [detect_two_same_key env v1 v2 s1 e1 s2 e2 p1 p2 hk he1 hd1 he2 hd2]
    by_cases hc : s1 < e2 ∧ s2 < e1
    · simp [hc]
    · simp [hc]
  · rw [detect_two_same_key envW (mkConfSched ("V1") 36000 43200)
      (mkConfSched ("V2") 43200 50400) 36000 43200 43200 50400 rfl rfl rfl rfl rfl rfl rfl]
    norm_num
  · rw [detect_two_same_key envW (mkConfSched ("V1") 36000 43260)
      (mkConfSched ("V2") 43200 50400) 36000 43260 43200 50400 rfl rfl rfl rfl rfl rfl rfl]
    have hc : (36000 : ℚ) < 50400 ∧ (43200 : ℚ) < 43260 := by norm_num
    have hmin : min (43260 : ℚ) 50400 = 43260 := by norm_num
    have hmax : max (36000 : ℚ) 43200 = 43200 := by norm_num
    have hq : ((43260 : ℚ) - 43200) / 60 = 1 := by norm_num
    simp [hc, hmin, hmax, hq]
    decide

/-- Witness for the amended C3 at a concrete crossing pair. -/
theorem c3_overlap_truncation_witness :
    detect_berth_conflicts envW
      [mkConfSched ("V1") 36000 43260, mkConfSched ("V2") 43200 50400] ≠ [] :=
  (c3_overlap_truncation.1 envW (mkConfSched ("V1") 36000 43260)
    (mkConfSched ("V2") 43200 50400) 36000 43260 43200 50400
    rfl rfl rfl rfl rfl rfl rfl).1.mpr (by norm_num)

/-- C3 counterexample to the floor claim: with the degenerate (but
participating) window [200,110) against [0,1000) the emitted overlap is
`int(-1.5) = -1`, whereas the floor of the same quantity is `-2`. -/
theorem c3_floor_counterexample :
    List.map ConflictAlert.tempo_overlap
      (detect_berth_conflicts envW
        [mkConfSched ("D1") 200 110, mkConfSched ("D2") 0 1000]) = [some (-1)]
    ∧ Int.floor ((min (110 : ℚ) 1000 - max 200 0) / 60) = -2 := by
  constructor
  · rw [detect_two_same_key envW (mkConfSched ("D1") 200 110)
      (mkConfSched ("D2") 0 1000) 200 110 0 1000 rfl rfl rfl rfl rfl rfl rfl]
    have hc : (200 : ℚ) < 1000 ∧ (0 : ℚ) < 110 := by norm_num
    have hmin : min (110 : ℚ) 1000 = 110 := by norm_num
    have hmax : max (200 : ℚ) 0 = 200 := by norm_num
    have hq : ((110 : ℚ) - 200) / 60 = -3 / 2 := by norm_num
    simp [hc, hmin, hmax, hq]
    norm_num [pyInt]
    decide
  · have hmin : min (110 : ℚ) 1000 = 110 := by norm_num
    have hmax : max (200 : ℚ) 0 = 200 := by norm_num
    rw [hmin, hmax]
    norm_num [Int.floor_eq_iff]

/-- A participating schedule carries both estimated instants. -/
theorem participates_fields {s : VesselSchedule} (h : participates s = true) :
    ∃ b d, s.etb.estimado = some b ∧ s.etd.estimado = some d := by
  unfold participates at h
  rw [Bool.and_eq_true, Bool.and_eq_true] at h
  obtain ⟨⟨-, hb⟩, hd⟩ := h
  obtain ⟨b, hb'⟩ := Option.isSome_iff_exists.mp hb
  obtain ⟨d, hd'⟩ := Option.isSome_iff_exists.mp hd
  exact ⟨b, d, hb', hd'⟩

/-- C10: the detector is symmetric under reversing a two-schedule input:
same number of alerts, with the same overlap-minute values. -/
theorem c10_detect_symmetric (env : Env) (A B : VesselSchedule) :
    List.map ConflictAlert.tempo_overlap (detect_berth_conflicts env [A, B])
      = List.map ConflictAlert.tempo_overlap (detect_berth_conflicts env [B, A])
    ∧ (detect_berth_conflicts env [A, B]).length
      = (detect_berth_conflicts env [B, A]).length := by
  by_cases pA : participates A = true
  · by_cases pB : participates B = true
    · by_cases hk : termKey A = termKey B
      · obtain ⟨s1, e1, he1, hd1⟩ := participates_fields pA
        obtain ⟨s2, e2, he2, hd2⟩ := participates_fields pB
        rw [detect_two_same_key env A B s1 e1 s2 e2 pA pB hk he1 hd1 he2 hd2,
          detect_two_same_key env B A s2 e2 s1 e1 pB pA hk.symm he2 hd2 he1 hd1]
        by_cases hc : s1 < e2 ∧ s2 < e1
        · rw [if_pos hc, if_pos ⟨hc.2, hc.1⟩]
          simp [min_comm e1 e2, max_comm s1 s2]
        · rw [if_neg hc, if_neg fun hc2 => hc ⟨hc2.2, hc2.1⟩]
          simp
      · rw [detect_two_nil env A B (Or.inr (Or.inr hk)),
          detect_two_nil env B A (Or.inr (Or.inr (Ne.symm hk)))]
        simp
    · have hB : participates B = false := by
        cases hpb : participates B
        · rfl
        · exact absurd hpb pB
      rw [detect_two_nil env A B (Or.inr (Or.inl hB)),
        detect_two_nil env B A (Or.inl hB)]
      simp
  · have hA : participates A = false := by
      cases hpa : participates A
      · rfl
      · exact absurd hpa pA
    rw [detect_two_nil env A B (Or.inl hA),
      detect_two_nil env B A (Or.inr (Or.inl hA))]
    simp

/-- `vessel_id in vessels_dict` is key membership. -/
theorem keyExists_iff (acc : List (String × VesselSchedule)) (i : String) :
    keyExists acc i = true ↔ i ∈ List.map Prod.fst acc := by
  unfold keyExists
  rw [List.any_eq_true]
  constructor
  · rintro ⟨e, he, hei⟩
    rw [beq_iff_eq] at hei
    exact hei ▸ List.mem_map_of_mem Prod.fst he
  · intro hm
    obtain ⟨e, he, hei⟩ := List.mem_map.mp hm
    exact ⟨e, he, by rw [hei, beq_self_eq_true]⟩

/-- Keys after a dict assignment: unchanged when present, appended when new. -/
theorem keys_upsertEntry (k : String) (v : VesselSchedule)
    (acc : List (String × VesselSchedule)) :
    List.map Prod.fst (upsertEntry k v acc)
      = (if k ∈ List.map Prod.fst acc then List.map Prod.fst acc
         else List.map Prod.fst acc ++ [k]) := by
  induction acc with
  | nil => simp [upsertEntry]
  | cons e rest ih =>
    by_cases h : e.1 = k
    · simp [upsertEntry, h]
    · have hne : ¬ k = e.1 := fun hx => h hx.symm
      by_cases hc : k ∈ List.map Prod.fst rest
      · simp [upsertEntry, if_neg h, ih, hc, hne]
      · simp [upsertEntry, if_neg h, ih, hc, hne]

/-- The agency loop never changes the key sequence. -/
theorem keys_applyAgencia (acc : List (String × VesselSchedule)) (a : AgenciaRecord) :
    List.map Prod.fst (applyAgencia acc a) = List.map Prod.fst acc := by
  unfold applyAgencia
  cases AgenciaRecord.identificadorNavio a with
  | none => rfl
  | some i =>
    rw [List.map_map]
    refine List.map_congr_left fun e _ => ?_
    by_cases h : e.1 = i <;> simp [h]

theorem keys_processAgencia (acc : List (String × VesselSchedule))
    (as : List AgenciaRecord) :
    List.map Prod.fst (processAgencia acc as) = List.map Prod.fst acc := by
  induction as generalizing acc with
  | nil => rfl
  | cons a rest ih => rw [processAgencia, ih, keys_applyAgencia]

/-- The MarineTraffic enrichment never changes the key sequence. -/
theorem keys_applyMarine (env : Env) (acc : List (String × VesselSchedule)) :
    List.map Prod.fst (applyMarine env acc) = List.map Prod.fst acc := by
  unfold applyMarine
  rw [List.map_map]
  refine List.map_congr_left fun e _ => ?_
  unfold marineEntry
  cases h : sampleMarineData e.1 with
  | none => simp [h]
  | some m => simp [h]

/-- Point updates never change the key sequence. -/
theorem keys_updateEntry (acc : List (String × VesselSchedule)) (i : String)
    (f : VesselSchedule → VesselSchedule) :
    List.map Prod.fst (updateEntry acc i f) = List.map Prod.fst acc := by
  unfold updateEntry
  rw [List.map_map]
  refine List.map_congr_left fun e _ => ?_
  by_cases h : e.1 = i <;> simp [h]

theorem keys_stepSolicitacao (env : Env) (i : String) (p : PraticagemRecord)
    (acc res : List (String × VesselSchedule))
    (h : stepSolicitacao env i p acc = Except.ok res) :
    List.map Prod.fst res = List.map Prod.fst acc := by
  unfold stepSolicitacao at h
  cases hp : PraticagemRecord.dataSolicitacao p with
  | none => rw [hp] at h; dsimp only at h; cases h; rfl
  | some s =>
    rw [hp] at h
    dsimp only at h
    by_cases hs : (s != "") = true
    · rw [if_pos hs] at h
      cases hq : parseTs env s with
      | ok q => rw [hq] at h; dsimp only at h; cases h; exact keys_updateEntry acc i _
      | error e => rw [hq] at h; dsimp only at h; cases h
    · rw [if_neg hs] at h; cases h; rfl

theorem keys_stepExecucao (env : Env) (i : String) (p : PraticagemRecord)
    (acc res : List (String × VesselSchedule))
    (h : stepExecucao env i p acc = Except.ok res) :
    List.map Prod.fst res = List.map Prod.fst acc := by
  unfold stepExecucao at h
  cases hp : PraticagemRecord.dataExecucao p with
  | none => rw [hp] at h; dsimp only at h; cases h; rfl
  | some s =>
    rw [hp] at h
    dsimp only at h
    by_cases hs : (s != "") = true
    · rw [if_pos hs] at h
      by_cases he : PraticagemRecord.manobraTipo p = some ("entrada")
      · rw [if_pos he] at h
        cases hq : parseTs env s with
        | ok q => rw [hq] at h; dsimp only at h; cases h; exact keys_updateEntry acc i _
        | error e => rw [hq] at h; dsimp only at h; cases h
      · rw [if_neg he] at h
        by_cases hx : PraticagemRecord.manobraTipo p = some ("saida")
        · rw [if_pos hx] at h
          cases hq : parseTs env s with
          | ok q => rw [hq] at h; dsimp only at h; cases h; exact keys_updateEntry acc i _
          | error e => rw [hq] at h; dsimp only at h; cases h
        · rw [if_neg hx] at h; cases h; rfl
    · rw [if_neg hs] at h; cases h; rfl

theorem keys_stepIntercorrencia (i : String) (p : PraticagemRecord)
    (acc : List (String × VesselSchedule)) :
    List.map Prod.fst (stepIntercorrencia i p acc) = List.map Prod.fst acc := by
  unfold stepIntercorrencia
  cases hp : PraticagemRecord.motivoIntercorrencia p with
  | none => rfl
  | some s =>
    dsimp only
    by_cases hs : (s != "") = true
    · rw [if_pos hs]; exact keys_updateEntry acc i _
    · rw [if_neg hs]

theorem keys_applyPraticagem (env : Env) (acc res : List (String × VesselSchedule))
    (p : PraticagemRecord) (h : applyPraticagem env acc p = Except.ok res) :
    List.map Prod.fst res = List.map Prod.fst acc := by
  unfold applyPraticagem at h
  cases hp : PraticagemRecord.identificadorNavio p with
  | none => rw [hp] at h; dsimp only at h; cases h; rfl
  | some i =>
    rw [hp] at h
    dsimp only at h
    by_cases hk : keyExists acc i = true
    · rw [if_pos hk] at h
      cases h1 : stepSolicitacao env i p acc with
      | error e => rw [h1] at h; dsimp only at h; cases h
      | ok acc1 =>
        rw [h1] at h
        dsimp only at h
        cases h2 : stepExecucao env i p acc1 with
        | error e => rw [h2] at h; dsimp only at h; cases h
        | ok acc2 =>
          rw [h2] at h
          dsimp only at h
          cases h
          rw [keys_stepIntercorrencia, keys_stepExecucao env i p acc1 acc2 h2,
            keys_stepSolicitacao env i p acc acc1 h1]
    · rw [if_neg hk] at h; cases h; rfl

theorem keys_processPraticagem (env : Env) (acc res : List (String × VesselSchedule))
    (ps : List PraticagemRecord) (h : processPraticagem env acc ps = Except.ok res) :
    List.map Prod.fst res = List.map Prod.fst acc := by
  induction ps generalizing acc with
  | nil => rw [processPraticagem] at h; cases h; rfl
  | cons p rest ih =>
    rw [processPraticagem] at h
    cases h1 : applyPraticagem env acc p with
    | error e => rw [h1] at h; cases h
    | ok acc1 =>
      rw [h1] at h
      rw [ih acc1 h, keys_applyPraticagem env acc acc1 p h1]

/-- Fold the keys of terminal records into a dict-key list: append each
new key, leave the order untouched for a repeated key. -/
def insKeys (ks : List String) : List String → List String
  | [] => ks
  | i :: rest => insKeys (if i ∈ ks then ks else ks ++ [i]) rest

/-- The truthy vessel identifiers of the terminal feed, in feed order. -/
def nonEmptyTerminalIds (terminal_data : List TerminalRecord) : List String :=
  terminal_data.filterMap fun t =>
    match TerminalRecord.identificadorNavio t with
    | some i => if i != "" then some i else none
    | none => none

theorem truthy_iff (o : Option String) :
    truthy o = true ↔ ∃ s, o = some s ∧ s ≠ "" := by
  cases o with
  | none => simp [truthy]
  | some s => simp [truthy]

theorem nonEmptyTerminalIds_cons_pos (t : TerminalRecord) (rest : List TerminalRecord)
    (i : String) (hi : TerminalRecord.identificadorNavio t = some i) (hne : i ≠ "") :
    nonEmptyTerminalIds (t :: rest) = i :: nonEmptyTerminalIds rest := by
  unfold nonEmptyTerminalIds
  rw [List.filterMap_cons, hi]
  dsimp only
  rw [if_pos (by simpa using hne)]

theorem nonEmptyTerminalIds_cons_neg (t : TerminalRecord) (rest : List TerminalRecord)
    (hf : truthy ( TerminalRecord.identificadorNavio t) = false) :
    nonEmptyTerminalIds (t :: rest) = nonEmptyTerminalIds rest := by
  unfold nonEmptyTerminalIds
  rw [List.filterMap_cons]
  cases hi : TerminalRecord.identificadorNavio t with
  | none => rfl
  | some i =>
    unfold truthy at hf
    rw [hi] at hf
    dsimp only at hf
    dsimp only
    rw [hf]
    rfl

theorem firstDedupAux_congr (seen1 seen2 : List String)
    (hs : ∀ a, a ∈ seen1 ↔ a ∈ seen2) (l : List String) :
    firstDedupAux seen1 l = firstDedupAux seen2 l := by
  induction l generalizing seen1 seen2 with
  | nil => rfl
  | cons x xs ih =>
    unfold firstDedupAux
    by_cases hx : x ∈ seen1
    · rw [if_pos hx, if_pos ((hs x).mp hx), ih seen1 seen2 hs]
    · rw [if_neg hx, if_neg (fun hx2 => hx ((hs x).mpr hx2)),
        ih (x :: seen1) (x :: seen2) (by intro a; simp [hs a])]

theorem insKeys_eq (ks l : List String) :
    insKeys ks l = ks ++ firstDedupAux ks l := by
  induction l generalizing ks with
  | nil => simp [insKeys, firstDedupAux]
  | cons i rest ih =>
    unfold insKeys firstDedupAux
    by_cases hi : i ∈ ks
    · rw [if_pos hi, if_pos hi, ih]
    · rw [if_neg hi, if_neg hi, ih (ks ++ [i]),
        firstDedupAux_congr (ks ++ [i]) (i :: ks) (by intro a; simp [or_comm]) rest]
      simp

theorem insKeys_nil (l : List String) : insKeys [] l = firstDedup l := by
  rw [insKeys_eq]
  rfl

theorem mem_firstDedupAux (a : String) (seen l : List String) :
    a ∈ firstDedupAux seen l ↔ a ∈ l ∧ a ∉ seen := by
  induction l generalizing seen with
  | nil => simp [firstDedupAux]
  | cons x xs ih =>
    unfold firstDedupAux
    by_cases hx : x ∈ seen
    · rw [if_pos hx, ih]
      constructor
      · rintro ⟨h1, h2⟩
        exact ⟨List.mem_cons_of_mem x h1, h2⟩
      · rintro ⟨h1, h2⟩
        rcases List.mem_cons.mp h1 with h1 | h1
        · exact absurd (h1 ▸ hx) h2
        · exact ⟨h1, h2⟩
    · rw [if_neg hx]
      rw [List.mem_cons, ih (x :: seen)]
      constructor
      · rintro (rfl | ⟨h1, h2⟩)
        · exact ⟨List.mem_cons_self a xs, hx⟩
        · exact ⟨List.mem_cons_of_mem x h1,
            fun hs => h2 (List.mem_cons_of_mem x hs)⟩
      · rintro ⟨h1, h2⟩
        rcases List.mem_cons.mp h1 with rfl | h1
        · exact Or.inl rfl
        · by_cases hax : a = x
          · exact Or.inl hax
          · exact Or.inr ⟨h1, fun hs => by
              rcases List.mem_cons.mp hs with hs | hs
              · exact hax hs
              · exact h2 hs⟩

theorem nodup_firstDedupAux (seen l : List String) :
    (firstDedupAux seen l).Nodup := by
  induction l generalizing seen with
  | nil => simp [firstDedupAux]
  | cons x xs ih =>
    unfold firstDedupAux
    by_cases hx : x ∈ seen
    · rw [if_pos hx]; exact ih seen
    · rw [if_neg hx]
      refine List.nodup_cons.mpr ⟨fun hmem => ?_, ih (x :: seen)⟩
      exact ((mem_firstDedupAux x (x :: seen) xs).mp hmem).2 (List.mem_cons_self x seen)

theorem firstDedup_length (l : List String) :
    (firstDedup l).length = l.toFinset.card := by
  have h1 : (firstDedup l).Nodup := nodup_firstDedupAux [] l
  have h2 : (firstDedup l).toFinset = l.toFinset := by
    ext a
    simp only [List.mem_toFinset]
    rw [show firstDedup l = firstDedupAux [] l from rfl, mem_firstDedupAux]
    simp
  rw [← List.toFinset_card_of_nodup h1, h2]

theorem applyEtb_fields (env : Env) (t : TerminalRecord) (v v' : VesselSchedule)
    (h : applyEtb env t v = Except.ok v') :
    VesselSchedule.identificador_navio v' = VesselSchedule.identificador_navio v
    ∧ v'.etd = v.etd := by
  unfold applyEtb at h
  cases hp : TerminalRecord.dataPrevistaAtracacao t with
  | none => rw [hp] at h; dsimp only at h; cases h; exact ⟨rfl, rfl⟩
  | some s =>
    rw [hp] at h
    dsimp only at h
    by_cases hs : (s != "") = true
    · rw [if_pos hs] at h
      cases hq : parseTs env s with
      | ok q => rw [hq] at h; dsimp only at h; cases h; exact ⟨rfl, rfl⟩
      | error e => rw [hq] at h; dsimp only at h; cases h
    · rw [if_neg hs] at h; cases h; exact ⟨rfl, rfl⟩

theorem applyAtb_fields (env : Env) (t : TerminalRecord) (v v' : VesselSchedule)
    (h : applyAtb env t v = Except.ok v') :
    VesselSchedule.identificador_navio v' = VesselSchedule.identificador_navio v
    ∧ v'.etd = v.etd := by
  unfold applyAtb at h
  cases hp : TerminalRecord.dataRealAtracacao t with
  | none => rw [hp] at h; dsimp only at h; cases h; exact ⟨rfl, rfl⟩
  | some s =>
    rw [hp] at h
    dsimp only at h
    by_cases hs : (s != "") = true
    · rw [if_pos hs] at h
      cases hq : parseTs env s with
      | ok q => rw [hq] at h; dsimp only at h; cases h; exact ⟨rfl, rfl⟩
      | error e => rw [hq] at h; dsimp only at h; cases h
    · rw [if_neg hs] at h; cases h; exact ⟨rfl, rfl⟩

/-- A vessel built from a terminal record carries the record's (truthy)
identifier and no estimated departure. -/
theorem stepTerminalVessel_fields (env : Env) (n : Nat) (t : TerminalRecord)
    (v : VesselSchedule) (h : stepTerminalVessel env n t = Except.ok v) :
    VesselSchedule.identificador_navio v
        = Option.getD ( TerminalRecord.identificadorNavio t) ("")
    ∧ v.etd.estimado = none := by
  unfold stepTerminalVessel at h
  cases h1 : applyEtb env t
      (mkTerminalVessel env n (Option.getD ( TerminalRecord.identificadorNavio t) ("")) t) with
  | error e => rw [h1] at h; cases h
  | ok v1 =>
    rw [h1] at h
    dsimp only at h
    obtain ⟨hi1, he1⟩ := applyEtb_fields env t _ v1 h1
    obtain ⟨hi2, he2⟩ := applyAtb_fields env t v1 v h
    refine ⟨hi2.trans (hi1.trans rfl), ?_⟩
    rw [show v.etd.estimado = v1.etd.estimado from by rw [he2],
      show v1.etd.estimado = (mkTerminalVessel env n
        (Option.getD ( TerminalRecord.identificadorNavio t) ("")) t).etd.estimado from by
          rw [he1]]
    rfl

theorem keys_processTerminal (env : Env) (n : Nat)
    (acc d : List (String × VesselSchedule)) (ts : List TerminalRecord)
    (h : processTerminal env n acc ts = Except.ok d) :
    List.map Prod.fst d = insKeys (List.map Prod.fst acc) (nonEmptyTerminalIds ts) := by
  induction ts generalizing n acc with
  | nil => rw [processTerminal] at h; cases h; rfl
  | cons t rest ih =>
    rw [processTerminal] at h
    by_cases ht : truthy ( TerminalRecord.identificadorNavio t) = true
    · rw [if_pos ht] at h
      obtain ⟨i, hi, hine⟩ := (truthy_iff _).mp ht
      cases hv : stepTerminalVessel env n t with
      | error e => rw [hv] at h; cases h
      | ok v =>
        rw [hv] at h
        dsimp only at h
        rw [ih _ _ h, keys_upsertEntry, nonEmptyTerminalIds_cons_pos t rest i hi hine,
          insKeys, hi]
        rfl
    · rw [if_neg ht] at h
      rw [ih _ _ h, nonEmptyTerminalIds_cons_neg t rest (Bool.not_eq_true _ ▸ ht)]

/-- Invariant of the consolidation dict: every entry's schedule carries
its key as identifier and has no estimated departure. -/
def InvDict (d : List (String × VesselSchedule)) : Prop :=
  ∀ e ∈ d, VesselSchedule.identificador_navio e.2 = e.1 ∧ (e.2).etd.estimado = none

theorem InvDict_upsertEntry {d : List (String × VesselSchedule)} {k : String}
    {v : VesselSchedule} (hv : VesselSchedule.identificador_navio v = k)
    (he : v.etd.estimado = none) (h : InvDict d) : InvDict (upsertEntry k v d) := by
  induction d with
  | nil =>
    intro e he'
    rcases List.mem_singleton.mp he' with rfl
    exact ⟨hv, he⟩
  | cons e0 rest ih =>
    intro e he'
    unfold upsertEntry at he'
    by_cases h0 : e0.1 = k
    · rw [if_pos h0] at he'
      rcases List.mem_cons.mp he' with rfl | hmem
      · exact ⟨hv, he⟩
      · exact h e (List.mem_cons_of_mem e0 hmem)
    · rw [if_neg h0] at he'
      rcases List.mem_cons.mp he' with rfl | hmem
      · exact h e (List.mem_cons_self e rest)
      · exact ih (fun e2 he2 => h e2 (List.mem_cons_of_mem e0 he2)) e hmem

theorem InvDict_processTerminal (env : Env) (n : Nat)
    (acc d : List (String × VesselSchedule)) (ts : List TerminalRecord)
    (hacc : InvDict acc) (h : processTerminal env n acc ts = Except.ok d) :
    InvDict d := by
  induction ts generalizing n acc with
  | nil => rw [processTerminal] at h; cases h; exact hacc
  | cons t rest ih =>
    rw [processTerminal] at h
    by_cases ht : truthy ( TerminalRecord.identificadorNavio t) = true
    · rw [if_pos ht] at h
      cases hv : stepTerminalVessel env n t with
      | error e => rw [hv] at h; cases h
      | ok v =>
        rw [hv] at h
        dsimp only at h
        obtain ⟨hvi, hve⟩ := stepTerminalVessel_fields env n t v hv
        exact ih _ _ (InvDict_upsertEntry hvi hve hacc) h
    · rw [if_neg ht] at h
      exact ih _ _ hacc h

theorem InvDict_map {d : List (String × VesselSchedule)}
    {g : (String × VesselSchedule) → String × VesselSchedule}
    (hg : ∀ e, (g e).1 = e.1
      ∧ VesselSchedule.identificador_navio (g e).2 = VesselSchedule.identificador_navio e.2
      ∧ ((g e).2).etd.estimado = (e.2).etd.estimado)
    (h : InvDict d) : InvDict (d.map g) := by
  intro e he
  obtain ⟨e0, he0, rfl⟩ := List.mem_map.mp he
  obtain ⟨h1, h2, h3⟩ := hg e0
  obtain ⟨h4, h5⟩ := h e0 he0
  exact ⟨by rw [h2, h4, h1], by rw [h3, h5]⟩

theorem InvDict_applyAgencia {d : List (String × VesselSchedule)}
    (a : AgenciaRecord) (h : InvDict d) : InvDict (applyAgencia d a) := by
  unfold applyAgencia
  cases AgenciaRecord.identificadorNavio a with
  | none => exact h
  | some i =>
    refine InvDict_map (fun e => ?_) h
    by_cases hi : e.1 = i <;> simp [hi]

theorem InvDict_processAgencia {d : List (String × VesselSchedule)}
    (as : List AgenciaRecord) (h : InvDict d) : InvDict (processAgencia d as) := by
  induction as generalizing d with
  | nil => exact h
  | cons a rest ih => exact ih (InvDict_applyAgencia a h)

theorem InvDict_applyMarine (env : Env) {d : List (String × VesselSchedule)}
    (h : InvDict d) : InvDict (applyMarine env d) := by
  unfold applyMarine
  refine InvDict_map (fun e => ?_) h
  unfold marineEntry
  cases hm : sampleMarineData e.1 with
  | none => simp [hm]
  | some m => simp [hm]

theorem InvDict_updateEntry {d : List (String × VesselSchedule)} {i : String}
    {f : VesselSchedule → VesselSchedule}
    (hf : ∀ v, VesselSchedule.identificador_navio (f v) = VesselSchedule.identificador_navio v
      ∧ (f v).etd.estimado = v.etd.estimado)
    (h : InvDict d) : InvDict (updateEntry d i f) := by
  unfold updateEntry
  refine InvDict_map (fun e => ?_) h
  by_cases hi : e.1 = i <;> simp [hi, hf e.2]

theorem InvDict_stepSolicitacao (env : Env) (i : String) (p : PraticagemRecord)
    {acc res : List (String × VesselSchedule)}
    (h : stepSolicitacao env i p acc = Except.ok res) (hacc : InvDict acc) :
    InvDict res := by
  unfold stepSolicitacao at h
  cases hp : PraticagemRecord.dataSolicitacao p with
  | none => rw [hp] at h; dsimp only at h; cases h; exact hacc
  | some s =>
    rw [hp] at h
    dsimp only at h
    by_cases hs : (s != "") = true
    · rw [if_pos hs] at h
      cases hq : parseTs env s with
      | ok q =>
        rw [hq] at h; dsimp only at h; cases h
        exact InvDict_updateEntry (fun v => ⟨rfl, rfl⟩) hacc
      | error e => rw [hq] at h; dsimp only at h; cases h
    · rw [if_neg hs] at h; cases h; exact hacc

theorem InvDict_stepExecucao (env : Env) (i : String) (p : PraticagemRecord)
    {acc res : List (String × VesselSchedule)}
    (h : stepExecucao env i p acc = Except.ok res) (hacc : InvDict acc) :
    InvDict res := by
  unfold stepExecucao at h
  cases hp : PraticagemRecord.dataExecucao p with
  | none => rw [hp] at h; dsimp only at h; cases h; exact hacc
  | some s =>
    rw [hp] at h
    dsimp only at h
    by_cases hs : (s != "") = true
    · rw [if_pos hs] at h
      by_cases he : PraticagemRecord.manobraTipo p = some ("entrada")
      · rw [if_pos he] at h
        cases hq : parseTs env s with
        | ok q =>
          rw [hq] at h; dsimp only at h; cases h
          exact InvDict_updateEntry (fun v => ⟨rfl, rfl⟩) hacc
        | error e => rw [hq] at h; dsimp only at h; cases h
      · rw [if_neg he] at h
        by_cases hx : PraticagemRecord.manobraTipo p = some ("saida")
        · rw [if_pos hx] at h
          cases hq : parseTs env s with
          | ok q =>
            rw [hq] at h; dsimp only at h; cases h
            exact InvDict_updateEntry (fun v => ⟨rfl, rfl⟩) hacc
          | error e => rw [hq] at h; dsimp only at h; cases h
        · rw [if_neg hx] at h; cases h; exact hacc
    · rw [if_neg hs] at h; cases h; exact hacc

theorem InvDict_stepIntercorrencia (i : String) (p : PraticagemRecord)
    {acc : List (String × VesselSchedule)} (hacc : InvDict acc) :
    InvDict (stepIntercorrencia i p acc) := by
  unfold stepIntercorrencia
  cases hp : PraticagemRecord.motivoIntercorrencia p with
  | none => exact hacc
  | some s =>
    dsimp only
    by_cases hs : (s != "") = true
    · rw [if_pos hs]
      exact InvDict_updateEntry (fun v => ⟨rfl, rfl⟩) hacc
    · rw [if_neg hs]; exact hacc

theorem InvDict_applyPraticagem (env : Env) {acc res : List (String × VesselSchedule)}
    (p : PraticagemRecord) (h : applyPraticagem env acc p = Except.ok res)
    (hacc : InvDict acc) : InvDict res := by
  unfold applyPraticagem at h
  cases hp : PraticagemRecord.identificadorNavio p with
  | none => rw [hp] at h; dsimp only at h; cases h; exact hacc
  | some i =>
    rw [hp] at h
    dsimp only at h
    by_cases hk : keyExists acc i = true
    · rw [if_pos hk] at h
      cases h1 : stepSolicitacao env i p acc with
      | error e => rw [h1] at h; dsimp only at h; cases h
      | ok acc1 =>
        rw [h1] at h
        dsimp only at h
        cases h2 : stepExecucao env i p acc1 with
        | error e => rw [h2] at h; dsimp only at h; cases h
        | ok acc2 =>
          rw [h2] at h
          dsimp only at h
          cases h
          exact InvDict_stepIntercorrencia i p
            (InvDict_stepExecucao env i p h2 (InvDict_stepSolicitacao env i p h1 hacc))
    · rw [if_neg hk] at h; cases h; exact hacc

theorem InvDict_processPraticagem (env : Env) {acc res : List (String × VesselSchedule)}
    (ps : List PraticagemRecord) (h : processPraticagem env acc ps = Except.ok res)
    (hacc : InvDict acc) : InvDict res := by
  induction ps generalizing acc with
  | nil => rw [processPraticagem] at h; cases h; exact hacc
  | cons p rest ih =>
    rw [processPraticagem] at h
    cases h1 : applyPraticagem env acc p with
    | error e => rw [h1] at h; cases h
    | ok acc1 =>
      rw [h1] at h
      exact ih h (InvDict_applyPraticagem env p h1 hacc)

/-- Split a successful consolidation into its phases. -/
theorem consolidate_ok_elim (env : Env) (ag : List AgenciaRecord)
    (pr : List PraticagemRecord) (t : List TerminalRecord)
    (au : List AutoridadeRecord) (out : List VesselSchedule)
    (h : consolidate_vessel_data env ag pr t au = Except.ok out) :
    ∃ d1 d4, processTerminal env 0 [] t = Except.ok d1
      ∧ processPraticagem env (applyMarine env (processAgencia d1 ag)) pr = Except.ok d4
      ∧ out = d4.map Prod.snd := by
  unfold consolidate_vessel_data at h
  cases h1 : processTerminal env 0 [] t with
  | error e => rw [h1] at h; cases h
  | ok d1 =>
    rw [h1] at h
    dsimp only at h
    cases h2 : processPraticagem env (applyMarine env (processAgencia d1 ag)) pr with
    | error e => rw [h2] at h; dsimp only at h; cases h
    | ok d4 =>
      rw [h2] at h
      dsimp only at h
      cases h
      exact ⟨d1, d4, rfl, h2, rfl⟩

/-- C2: a successful consolidation returns exactly one schedule per
distinct truthy terminal-record identifier, in order of first appearance
(records without an identifier are skipped; agency/pilotage records never
create schedules), so the output length is the number of distinct
identifiers. -/
theorem c2_consolidate_ids (env : Env) (ag : List AgenciaRecord)
    (pr : List PraticagemRecord) (t : List TerminalRecord)
    (au : List AutoridadeRecord) (out : List VesselSchedule)
    (h : consolidate_vessel_data env ag pr t au = Except.ok out) :
    List.map (fun v => VesselSchedule.identificador_navio v) out
        = firstDedup (nonEmptyTerminalIds t)
      ∧ out.length = (nonEmptyTerminalIds t).toFinset.card := by
  obtain ⟨d1, d4, h1, h2, rfl⟩ := consolidate_ok_elim env ag pr t au out h
  have hkeys : List.map Prod.fst d4 = firstDedup (nonEmptyTerminalIds t) := by
    rw [keys_processPraticagem env _ d4 pr h2, keys_applyMarine, keys_processAgencia,
      keys_processTerminal env 0 [] d1 t h1]
    exact insKeys_nil _
  have hinv : InvDict d4 :=
    InvDict_processPraticagem env pr h2
      (InvDict_applyMarine env (InvDict_processAgencia ag
        (InvDict_processTerminal env 0 [] d1 t (fun e he => absurd he (List.not_mem_nil e)) h1)))
  have hmap : List.map (fun v => VesselSchedule.identificador_navio v) (d4.map Prod.snd)
      = List.map Prod.fst d4 := by
    rw [List.map_map]
    exact List.map_congr_left fun e he => (hinv e he).1
  refine ⟨by rw [hmap, hkeys], ?_⟩
  calc (d4.map Prod.snd).length
      = (List.map Prod.fst d4).length := by rw [List.length_map, List.length_map]
    _ = (firstDedup (nonEmptyTerminalIds t)).length := by rw [hkeys]
    _ = (nonEmptyTerminalIds t).toFinset.card := firstDedup_length _

/-- Sample terminal feed with a duplicate identifier, an empty identifier
and a missing identifier. -/
def c2T : List TerminalRecord :=
  [{ identificadorNavio := some ("A") }, { identificadorNavio := some ("B") },
   { identificadorNavio := some ("A") }, { identificadorNavio := some ("") }, {}]

/-- Sample agency feed whose identifier matches no terminal record. -/
def c2Ag : List AgenciaRecord := [{ identificadorNavio := some ("C"), nomeAgencia := some ("AgX") }]

/-- Sample pilotage feed whose identifier matches no terminal record. -/
def c2Pr : List PraticagemRecord := [{ identificadorNavio := some ("D") }]

/-- The two schedules produced from `c2T` (the duplicate "A" record keeps
the first position but consumes the third uuid). -/
def c2OutA : VesselSchedule :=
  { id := ("uuid-2"), identificador_navio := ("A"), created_at := 1000000, updated_at := 1000000 }

def c2OutB : VesselSchedule :=
  { id := ("uuid-1"), identificador_navio := ("B"), created_at := 1000000, updated_at := 1000000 }

/-- Witness for C2 on the sample feeds. -/
theorem c2_consolidate_ids_witness :
    consolidate_vessel_data envW c2Ag c2Pr c2T [] = Except.ok [c2OutA, c2OutB]
    ∧ List.map (fun v => VesselSchedule.identificador_navio v) [c2OutA, c2OutB]
        = firstDedup (nonEmptyTerminalIds c2T)
    ∧ ([c2OutA, c2OutB] : List VesselSchedule).length
        = (nonEmptyTerminalIds c2T).toFinset.card := by
  have h : consolidate_vessel_data envW c2Ag c2Pr c2T [] = Except.ok [c2OutA, c2OutB] := rfl
  obtain ⟨h1, h2⟩ := c2_consolidate_ids envW c2Ag c2Pr c2T [] [c2OutA, c2OutB] h
  exact ⟨h, h1, h2⟩

theorem groupSchedules_no_participants (l : List VesselSchedule)
    (h : ∀ v ∈ l, participates v = false) :
    ∀ acc, groupSchedules acc l = acc := by
  induction l with
  | nil => intro acc; rfl
  | cons s rest ih =>
    intro acc
    rw [groupSchedules, if_neg (by simp [h s (List.mem_cons_self s rest)])]
    exact ih (fun v hv => h v (List.mem_cons_of_mem s hv)) acc

/-- The detector ignores schedules without an estimated departure. -/
theorem detect_nil_of_no_participants (env : Env) (l : List VesselSchedule)
    (h : ∀ v ∈ l, participates v = false) :
    detect_berth_conflicts env l = [] := by
  unfold detect_berth_conflicts
  rw [groupSchedules_no_participants l h []]
  rfl

/-- C4: consolidation never assigns an estimated departure, and without
one a schedule cannot participate in conflict detection, so the detector
run directly on any successful consolidation output returns no alerts. -/
theorem c4_consolidate_then_detect_empty (env env2 : Env) (ag : List AgenciaRecord)
    (pr : List PraticagemRecord) (t : List TerminalRecord)
    (au : List AutoridadeRecord) (out : List VesselSchedule)
    (h : consolidate_vessel_data env ag pr t au = Except.ok out) :
    (∀ v ∈ out, v.etd.estimado = none) ∧ detect_berth_conflicts env2 out = [] := by
  obtain ⟨d1, d4, h1, h2, rfl⟩ := consolidate_ok_elim env ag pr t au out h
  have hinv : InvDict d4 :=
    InvDict_processPraticagem env pr h2
      (InvDict_applyMarine env (InvDict_processAgencia ag
        (InvDict_processTerminal env 0 [] d1 t (fun e he => absurd he (List.not_mem_nil e)) h1)))
  have hetd : ∀ v ∈ d4.map Prod.snd, v.etd.estimado = none := by
    intro v hv
    obtain ⟨e, he, rfl⟩ := List.mem_map.mp hv
    exact (hinv e he).2
  refine ⟨hetd, detect_nil_of_no_participants env2 _ fun v hv => ?_⟩
  unfold participates
  rw [hetd v hv]
  simp

/-- Witness for C4 on the sample feeds. -/
theorem c4_consolidate_then_detect_empty_witness :
    (∀ v ∈ ([c2OutA, c2OutB] : List VesselSchedule), v.etd.estimado = none)
    ∧ detect_berth_conflicts envW [c2OutA, c2OutB] = [] :=
  c4_consolidate_then_detect_empty envW envW c2Ag c2Pr c2T [] [c2OutA, c2OutB] rfl

theorem parseTs_err (env : Env) (s : String) (h : Env.parse env (pyZ s) = none) :
    parseTs env s = Except.error (("Invalid isoformat string: ") ++ s) := by
  unfold parseTs
  rw [h]

theorem applyEtb_parse (env : Env) (t : TerminalRecord) (v v' : VesselSchedule)
    (h : applyEtb env t v = Except.ok v') (s : String)
    (hp : TerminalRecord.dataPrevistaAtracacao t = some s) (hs : s ≠ "") :
    (Env.parse env (pyZ s)).isSome = true := by
  unfold applyEtb at h
  rw [hp] at h
  dsimp only at h
  rw [if_pos (by simpa using hs)] at h
  cases hq : Env.parse env (pyZ s) with
  | none => rw [parseTs_err env s hq] at h; dsimp only at h; cases h
  | some q => rfl

theorem applyAtb_parse (env : Env) (t : TerminalRecord) (v v' : VesselSchedule)
    (h : applyAtb env t v = Except.ok v') (s : String)
    (hp : TerminalRecord.dataRealAtracacao t = some s) (hs : s ≠ "") :
    (Env.parse env (pyZ s)).isSome = true := by
  unfold applyAtb at h
  rw [hp] at h
  dsimp only at h
  rw [if_pos (by simpa using hs)] at h
  cases hq : Env.parse env (pyZ s) with
  | none => rw [parseTs_err env s hq] at h; dsimp only at h; cases h
  | some q => rfl

theorem stepTerminalVessel_parse (env : Env) (n : Nat) (t : TerminalRecord)
    (v : VesselSchedule) (h : stepTerminalVessel env n t = Except.ok v) :
    (∀ s, TerminalRecord.dataPrevistaAtracacao t = some s → s ≠ "" →
      (Env.parse env (pyZ s)).isSome = true)
    ∧ (∀ s, TerminalRecord.dataRealAtracacao t = some s → s ≠ "" →
      (Env.parse env (pyZ s)).isSome = true) := by
  unfold stepTerminalVessel at h
  cases h1 : applyEtb env t
      (mkTerminalVessel env n (Option.getD ( TerminalRecord.identificadorNavio t) ("")) t) with
  | error e => rw [h1] at h; cases h
  | ok v1 =>
    rw [h1] at h
    dsimp only at h
    exact ⟨fun s hp hs => applyEtb_parse env t _ v1 h1 s hp hs,
      fun s hp hs => applyAtb_parse env t v1 v h s hp hs⟩

theorem processTerminal_parse (env : Env) (n : Nat)
    (acc d : List (String × VesselSchedule)) (ts : List TerminalRecord)
    (h : processTerminal env n acc ts = Except.ok d) :
    ∀ r ∈ ts, truthy ( TerminalRecord.identificadorNavio r) = true →
      (∀ s, TerminalRecord.dataPrevistaAtracacao r = some s → s ≠ "" →
        (Env.parse env (pyZ s)).isSome = true)
      ∧ (∀ s, TerminalRecord.dataRealAtracacao r = some s → s ≠ "" →
        (Env.parse env (pyZ s)).isSome = true) := by
  induction ts generalizing n acc with
  | nil => intro r hr; exact absurd hr (List.not_mem_nil r)
  | cons t rest ih =>
    rw [processTerminal] at h
    intro r hr htr
    by_cases ht : truthy ( TerminalRecord.identificadorNavio t) = true
    · rw [if_pos ht] at h
      cases hv : stepTerminalVessel env n t with
      | error e => rw [hv] at h; cases h
      | ok v =>
        rw [hv] at h
        dsimp only at h
        rcases List.mem_cons.mp hr with rfl | hr2
        · exact stepTerminalVessel_parse env n r v hv
        · exact ih _ _ h r hr2 htr
    · rw [if_neg ht] at h
      rcases List.mem_cons.mp hr with rfl | hr2
      · exact absurd htr ht
      · exact ih _ _ h r hr2 htr

theorem stepSolicitacao_parse (env : Env) (i : String) (p : PraticagemRecord)
    (acc res : List (String × VesselSchedule))
    (h : stepSolicitacao env i p acc = Except.ok res) (s : String)
    (hp : PraticagemRecord.dataSolicitacao p = some s) (hs : s ≠ "") :
    (Env.parse env (pyZ s)).isSome = true := by
  unfold stepSolicitacao at h
  rw [hp] at h
  dsimp only at h
  rw [if_pos (by simpa using hs)] at h
  cases hq : Env.parse env (pyZ s) with
  | none => rw [parseTs_err env s hq] at h; dsimp only at h; cases h
  | some q => rfl

theorem stepExecucao_parse_entrada (env : Env) (i : String) (p : PraticagemRecord)
    (acc res : List (String × VesselSchedule))
    (h : stepExecucao env i p acc = Except.ok res) (s : String)
    (hp : PraticagemRecord.dataExecucao p = some s) (hs : s ≠ "")
    (hm : PraticagemRecord.manobraTipo p = some ("entrada")) :
    (Env.parse env (pyZ s)).isSome = true := by
  unfold stepExecucao at h
  rw [hp] at h
  dsimp only at h
  rw [if_pos (by simpa using hs), if_pos hm] at h
  cases hq : Env.parse env (pyZ s) with
  | none => rw [parseTs_err env s hq] at h; dsimp only at h; cases h
  | some q => rfl

theorem stepExecucao_parse_saida (env : Env) (i : String) (p : PraticagemRecord)
    (acc res : List (String × VesselSchedule))
    (h : stepExecucao env i p acc = Except.ok res) (s : String)
    (hp : PraticagemRecord.dataExecucao p = some s) (hs : s ≠ "")
    (hm : PraticagemRecord.manobraTipo p = some ("saida")) :
    (Env.parse env (pyZ s)).isSome = true := by
  unfold stepExecucao at h
  rw [hp] at h
  dsimp only at h
  rw [if_pos (by simpa using hs), if_neg (by rw [hm]; simp), if_pos hm] at h
  cases hq : Env.parse env (pyZ s) with
  | none => rw [parseTs_err env s hq] at h; dsimp only at h; cases h
  | some q => rfl

theorem processPraticagem_parse (env : Env)
    (acc d : List (String × VesselSchedule)) (ps : List PraticagemRecord)
    (h : processPraticagem env acc ps = Except.ok d) :
    ∀ p ∈ ps, ∀ i, PraticagemRecord.identificadorNavio p = some i →
      i ∈ List.map Prod.fst acc →
      (∀ s, PraticagemRecord.dataSolicitacao p = some s → s ≠ "" →
        (Env.parse env (pyZ s)).isSome = true)
      ∧ (∀ s, PraticagemRecord.dataExecucao p = some s → s ≠ "" →
          PraticagemRecord.manobraTipo p = some ("entrada") →
          (Env.parse env (pyZ s)).isSome = true)
      ∧ (∀ s, PraticagemRecord.dataExecucao p = some s → s ≠ "" →
          PraticagemRecord.manobraTipo p = some ("saida") →
          (Env.parse env (pyZ s)).isSome = true) := by
  induction ps generalizing acc with
  | nil => intro p hp; exact absurd hp (List.not_mem_nil p)
  | cons p0 rest ih =>
    rw [processPraticagem] at h
    intro p hp i hi hmem
    cases h1 : applyPraticagem env acc p0 with
    | error e => rw [h1] at h; cases h
    | ok acc1 =>
      rw [h1] at h
      rcases List.mem_cons.mp hp with rfl | hp2
      · have h1' := h1
        unfold applyPraticagem at h1'
        rw [hi] at h1'
        dsimp only at h1'
        rw [if_pos ((keyExists_iff acc i).mpr hmem)] at h1'
        cases h2 : stepSolicitacao env i p acc with
        | error e => rw [h2] at h1'; dsimp only at h1'; cases h1'
        | ok accA =>
          rw [h2] at h1'
          dsimp only at h1'
          cases h3 : stepExecucao env i p accA with
          | error e => rw [h3] at h1'; dsimp only at h1'; cases h1'
          | ok accB =>
            exact ⟨fun s hps hss => stepSolicitacao_parse env i p acc accA h2 s hps hss,
              fun s hps hss hm =>
                stepExecucao_parse_entrada env i p accA accB h3 s hps hss hm,
              fun s hps hss hm =>
                stepExecucao_parse_saida env i p accA accB h3 s hps hss hm⟩
      · refine ih acc1 h p hp2 i hi ?_
        rw [keys_applyPraticagem env acc acc1 p0 h1]
        exact hmem

/-- Membership in the truthy terminal identifiers. -/
theorem mem_nonEmptyTerminalIds (i : String) (t : List TerminalRecord) :
    i ∈ nonEmptyTerminalIds t
      ↔ ∃ r ∈ t, TerminalRecord.identificadorNavio r = some i ∧ i ≠ "" := by
  unfold nonEmptyTerminalIds
  rw [List.mem_filterMap]
  constructor
  · rintro ⟨r, hr, hf⟩
    refine ⟨r, hr, ?_⟩
    revert hf
    cases hid : TerminalRecord.identificadorNavio r with
    | none => intro hf; cases hf
    | some j =>
      dsimp only
      by_cases hj : (j != "") = true
      · rw [if_pos hj]
        intro hf
        cases hf
        exact ⟨rfl, by simpa using hj⟩
      · rw [if_neg hj]
        intro hf
        cases hf
  · rintro ⟨r, hr, hid, hne⟩
    refine ⟨r, hr, ?_⟩
    rw [hid]
    dsimp only
    rw [if_pos (by simpa using hne)]

theorem mem_firstDedup (a : String) (l : List String) :
    a ∈ firstDedup l ↔ a ∈ l := by
  rw [show firstDedup l = firstDedupAux [] l from rfl, mem_firstDedupAux]
  simp

/-- C8 (amended): if consolidation succeeds, every timestamp parse it
attempted succeeded — equivalently, a failing timestamp of a processed
record (a terminal record with a truthy identifier, or a pilotage record
whose identifier matches a truthy terminal identifier) aborts
`consolidate_vessel_data` with the propagated error rather than being
skipped or defaulted.  Records dropped by the identifier guards, and
empty-string (falsy) timestamp fields, are never parsed. -/
theorem c8_parse_failures_propagate (env : Env) (ag : List AgenciaRecord)
    (pr : List PraticagemRecord) (t : List TerminalRecord)
    (au : List AutoridadeRecord) (out : List VesselSchedule)
    (h : consolidate_vessel_data env ag pr t au = Except.ok out) :
    (∀ r ∈ t, truthy ( TerminalRecord.identificadorNavio r) = true →
      (∀ s, TerminalRecord.dataPrevistaAtracacao r = some s → s ≠ "" →
        (Env.parse env (pyZ s)).isSome = true)
      ∧ (∀ s, TerminalRecord.dataRealAtracacao r = some s → s ≠ "" →
        (Env.parse env (pyZ s)).isSome = true))
    ∧ (∀ p ∈ pr, ∀ i, PraticagemRecord.identificadorNavio p = some i →
        (∃ r ∈ t, TerminalRecord.identificadorNavio r = some i ∧ i ≠ "") →
        (∀ s, PraticagemRecord.dataSolicitacao p = some s → s ≠ "" →
          (Env.parse env (pyZ s)).isSome = true)
        ∧ (∀ s, PraticagemRecord.dataExecucao p = some s → s ≠ "" →
            PraticagemRecord.manobraTipo p = some ("entrada") →
            (Env.parse env (pyZ s)).isSome = true)
        ∧ (∀ s, PraticagemRecord.dataExecucao p = some s → s ≠ "" →
            PraticagemRecord.manobraTipo p = some ("saida") →
            (Env.parse env (pyZ s)).isSome = true)) := by
  obtain ⟨d1, d4, h1, h2, -⟩ := consolidate_ok_elim env ag pr t au out h
  refine ⟨processTerminal_parse env 0 [] d1 t h1, fun p hp i hi hex => ?_⟩
  refine processPraticagem_parse env _ d4 pr h2 p hp i hi ?_
  rw [keys_applyMarine, keys_processAgencia, keys_processTerminal env 0 [] d1 t h1]
  simp only [List.map_nil]
  rw [insKeys_nil, mem_firstDedup, mem_nonEmptyTerminalIds]
  exact hex

/-- Terminal feed with one truthy identifier and one parsed timestamp. -/
def c8T : List TerminalRecord :=
  [{ identificadorNavio := some ("A"),
     dataPrevistaAtracacao := some ("2024-01-01T00:00:00Z") }]

/-- The schedule produced from `c8T` under `envW`. -/
def c8Out : VesselSchedule :=
  { id := ("uuid-0"), identificador_navio := ("A"), etb := { estimado := some 0 },
    created_at := 1000000, updated_at := 1000000 }

/-- Witness for the amended C8 on a successful run. -/
theorem c8_parse_failures_propagate_witness :
    (Env.parse envW (pyZ ("2024-01-01T00:00:00Z"))).isSome = true := by
  have h : consolidate_vessel_data envW [] [] c8T [] = Except.ok [c8Out] := rfl
  exact ((c8_parse_failures_propagate envW [] [] c8T [] [c8Out] h).1
    _ (List.mem_cons_self _ _) rfl).1 _ rfl (by decide)

/-- An environment whose parser rejects every string. -/
def envC8 : Env :=
  { freshId := fun n => toString n
    now := 0
    parse := fun _ => none
    strHash := fun _ => 0 }

/-- C8 counterexample to the original claim: a pilotage record whose
identifier matches no terminal record carries a timestamp that fails to
parse, yet `consolidate_vessel_data` returns successfully — the record is
dropped by the identifier guard before any parse is attempted. -/
theorem c8_unknown_vessel_counterexample :
    Env.parse envC8 (pyZ ("garbage")) = none
    ∧ consolidate_vessel_data envC8 []
        [{ identificadorNavio := some ("X"), dataSolicitacao := some ("garbage") }]
        [] [] = Except.ok [] :=
  ⟨rfl, rfl⟩

/-- Erase the auto-generated fields (uuid, creation and update instants)
of a schedule. -/
def scrub (v : VesselSchedule) : VesselSchedule :=
  { v with id := (""), created_at := 0, updated_at := 0 }

/-- Erase the auto-generated fields of every entry of the dict. -/
def scrubD (d : List (String × VesselSchedule)) : List (String × VesselSchedule) :=
  d.map fun e => (e.1, scrub e.2)

theorem exceptMap_elim {α : Type} (f : α → α) (a b : Except String α)
    (h : Except.map f a = Except.map f b) :
    (∃ x y, a = Except.ok x ∧ b = Except.ok y ∧ f x = f y)
    ∨ ∃ e, a = Except.error e ∧ b = Except.error e := by
  cases a with
  | ok x =>
    cases b with
    | ok y =>
      simp only [Except.map] at h
      exact Or.inl ⟨x, y, rfl, rfl, by injection h⟩
    | error e => simp [Except.map] at h
  | error e =>
    cases b with
    | ok y => simp [Except.map] at h
    | error e2 =>
      simp only [Except.map] at h
      injection h with h2
      exact Or.inr ⟨e, rfl, by rw [h2]⟩

theorem scrubD_keys (d : List (String × VesselSchedule)) :
    List.map Prod.fst (scrubD d) = List.map Prod.fst d := by
  unfold scrubD
  rw [List.map_map]
  rfl

/-- Per-entry maps commuting with the scrub projection carry scrub
equality of dicts through `List.map`. -/
theorem scrubD_map_comm (G : (String × VesselSchedule) → String × VesselSchedule)
    (hG : ∀ e, ((G e).1, scrub (G e).2) = G (e.1, scrub e.2))
    (acc : List (String × VesselSchedule)) :
    scrubD (acc.map G) = (scrubD acc).map G := by
  unfold scrubD
  rw [List.map_map, List.map_map]
  exact List.map_congr_left fun e _ => hG e

theorem scrubD_upsertEntry (k : String) (v1 v2 : VesselSchedule)
    (hv : scrub v1 = scrub v2) :
    ∀ acc1 acc2, scrubD acc1 = scrubD acc2 →
      scrubD (upsertEntry k v1 acc1) = scrubD (upsertEntry k v2 acc2) := by
  intro acc1
  induction acc1 with
  | nil =>
    intro acc2 h
    cases acc2 with
    | nil => simp [upsertEntry, scrubD, hv]
    | cons e2 r2 => simp [scrubD] at h
  | cons e1 r1 ih =>
    intro acc2 h
    cases acc2 with
    | nil => simp [scrubD] at h
    | cons e2 r2 =>
      simp only [scrubD, List.map_cons, List.cons.injEq, Prod.mk.injEq] at h
      obtain ⟨⟨he1, hs⟩, htail⟩ := h
      unfold upsertEntry
      by_cases hk : e1.1 = k
      · rw [if_pos hk, if_pos (by rw [← he1]; exact hk)]
        simp [scrubD, hv, htail]
      · rw [if_neg hk, if_neg (by rw [← he1]; exact hk)]
        have htl := ih r2 htail
        simp only [scrubD] at htl
        simp [scrubD, he1, hs, htl]

theorem parseTs_congr (env1 env2 : Env) (hp : Env.parse env1 = Env.parse env2)
    (s : String) : parseTs env1 s = parseTs env2 s := by
  unfold parseTs
  rw [hp]

theorem applyEtb_congr (env1 env2 : Env) (hp : Env.parse env1 = Env.parse env2)
    (t : TerminalRecord) (v1 v2 : VesselSchedule) (hv : scrub v1 = scrub v2) :
    Except.map scrub (applyEtb env1 t v1) = Except.map scrub (applyEtb env2 t v2) := by
  unfold applyEtb
  cases hpd : TerminalRecord.dataPrevistaAtracacao t with
  | none => simp [Except.map, hv]
  | some s =>
    dsimp only
    by_cases hs : (s != "") = true
    · rw [if_pos hs, if_pos hs, parseTs_congr env1 env2 hp s]
      cases hq : parseTs env2 s with
      | ok q =>
        simp only [Except.map]
        have h1 : scrub { v1 with etb := { v1.etb with estimado := some q } }
            = { scrub v1 with etb := { (scrub v1).etb with estimado := some q } } := rfl
        have h2 : scrub { v2 with etb := { v2.etb with estimado := some q } }
            = { scrub v2 with etb := { (scrub v2).etb with estimado := some q } } := rfl
        rw [h1, h2, hv]
      | error e => rfl
    · rw [if_neg hs, if_neg hs]
      simp [Except.map, hv]

theorem applyAtb_congr (env1 env2 : Env) (hp : Env.parse env1 = Env.parse env2)
    (t : TerminalRecord) (v1 v2 : VesselSchedule) (hv : scrub v1 = scrub v2) :
    Except.map scrub (applyAtb env1 t v1) = Except.map scrub (applyAtb env2 t v2) := by
  unfold applyAtb
  cases hpd : TerminalRecord.dataRealAtracacao t with
  | none => simp [Except.map, hv]
  | some s =>
    dsimp only
    by_cases hs : (s != "") = true
    · rw [if_pos hs, if_pos hs, parseTs_congr env1 env2 hp s]
      cases hq : parseTs env2 s with
      | ok q =>
        simp only [Except.map]
        have h1 : scrub { v1 with atb := some q } = { scrub v1 with atb := some q } := rfl
        have h2 : scrub { v2 with atb := some q } = { scrub v2 with atb := some q } := rfl
        rw [h1, h2, hv]
      | error e => rfl
    · rw [if_neg hs, if_neg hs]
      simp [Except.map, hv]

theorem stepTerminalVessel_congr (env1 env2 : Env)
    (hp : Env.parse env1 = Env.parse env2) (n1 n2 : Nat) (t : TerminalRecord) :
    Except.map scrub (stepTerminalVessel env1 n1 t)
      = Except.map scrub (stepTerminalVessel env2 n2 t) := by
  unfold stepTerminalVessel
  have hv0 : scrub (mkTerminalVessel env1 n1
        (Option.getD ( TerminalRecord.identificadorNavio t) ("")) t)
      = scrub (mkTerminalVessel env2 n2
        (Option.getD ( TerminalRecord.identificadorNavio t) ("")) t) := rfl
  have he := applyEtb_congr env1 env2 hp t _ _ hv0
  rcases exceptMap_elim scrub _ _ he with ⟨x, y, hx, hy, hxy⟩ | ⟨e, hx, hy⟩
  · rw [hx, hy]
    dsimp only
    exact applyAtb_congr env1 env2 hp t x y hxy
  · rw [hx, hy]

theorem processTerminal_congr (env1 env2 : Env)
    (hp : Env.parse env1 = Env.parse env2) (ts : List TerminalRecord) :
    ∀ (n1 n2 : Nat) (acc1 acc2 : List (String × VesselSchedule)),
      scrubD acc1 = scrubD acc2 →
      Except.map scrubD (processTerminal env1 n1 acc1 ts)
        = Except.map scrubD (processTerminal env2 n2 acc2 ts) := by
  induction ts with
  | nil =>
    intro n1 n2 acc1 acc2 h
    simp [processTerminal, Except.map, h]
  | cons t rest ih =>
    intro n1 n2 acc1 acc2 h
    rw [processTerminal, processTerminal]
    by_cases ht : truthy ( TerminalRecord.identificadorNavio t) = true
    · rw [if_pos ht, if_pos ht]
      have hs := stepTerminalVessel_congr env1 env2 hp n1 n2 t
      rcases exceptMap_elim scrub _ _ hs with ⟨x, y, hx, hy, hxy⟩ | ⟨e, hx, hy⟩
      · rw [hx, hy]
        dsimp only
        exact ih _ _ _ _ (scrubD_upsertEntry _ x y hxy acc1 acc2 h)
      · rw [hx, hy]
    · rw [if_neg ht, if_neg ht]
      exact ih _ _ _ _ h

theorem applyAgencia_congr (a : AgenciaRecord)
    (acc1 acc2 : List (String × VesselSchedule)) (h : scrubD acc1 = scrubD acc2) :
    scrubD (applyAgencia acc1 a) = scrubD (applyAgencia acc2 a) := by
  unfold applyAgencia
  cases AgenciaRecord.identificadorNavio a with
  | none => exact h
  | some i =>
    have hG : ∀ e : String × VesselSchedule,
        (((if e.1 = i then (e.1, { e.2 with agencia_maritima := AgenciaRecord.nomeAgencia a })
          else e)).1,
         scrub ((if e.1 = i then (e.1, { e.2 with agencia_maritima := AgenciaRecord.nomeAgencia a })
          else e)).2)
        = (if (e.1, scrub e.2).1 = i
           then ((e.1, scrub e.2).1,
             { (e.1, scrub e.2).2 with agencia_maritima := AgenciaRecord.nomeAgencia a })
           else (e.1, scrub e.2)) := by
      intro e
      by_cases he : e.1 = i <;> simp [he, scrub]
    rw [scrubD_map_comm _ hG acc1, scrubD_map_comm _ hG acc2, h]

theorem processAgencia_congr (as : List AgenciaRecord)
    (acc1 acc2 : List (String × VesselSchedule)) (h : scrubD acc1 = scrubD acc2) :
    scrubD (processAgencia acc1 as) = scrubD (processAgencia acc2 as) := by
  induction as generalizing acc1 acc2 with
  | nil => exact h
  | cons a rest ih => exact ih _ _ (applyAgencia_congr a acc1 acc2 h)

theorem marineEntry_comm (env : Env) (e : String × VesselSchedule) :
    ((marineEntry env e).1, scrub (marineEntry env e).2)
      = marineEntry env (e.1, scrub e.2) := by
  unfold marineEntry
  cases hm : sampleMarineData e.1 with
  | none => simp [hm]
  | some m => simp [hm, scrub]

theorem applyMarine_congr (env1 env2 : Env)
    (hh : Env.strHash env1 = Env.strHash env2)
    (acc1 acc2 : List (String × VesselSchedule)) (h : scrubD acc1 = scrubD acc2) :
    scrubD (applyMarine env1 acc1) = scrubD (applyMarine env2 acc2) := by
  have h12 : applyMarine env2 acc2 = applyMarine env1 acc2 := by
    unfold applyMarine marineEntry
    rw [hh]
  rw [h12]
  unfold applyMarine
  rw [scrubD_map_comm _ (marineEntry_comm env1) acc1,
    scrubD_map_comm _ (marineEntry_comm env1) acc2, h]

theorem scrubD_updateEntry (i : String) (f : VesselSchedule → VesselSchedule)
    (hf : ∀ v, scrub (f v) = f (scrub v))
    (acc1 acc2 : List (String × VesselSchedule)) (h : scrubD acc1 = scrubD acc2) :
    scrubD (updateEntry acc1 i f) = scrubD (updateEntry acc2 i f) := by
  unfold updateEntry
  have hG : ∀ e : String × VesselSchedule,
      (((if e.1 = i then (e.1, f e.2) else e)).1,
        scrub ((if e.1 = i then (e.1, f e.2) else e)).2)
      = (if (e.1, scrub e.2).1 = i then ((e.1, scrub e.2).1, f (e.1, scrub e.2).2)
         else (e.1, scrub e.2)) := by
    intro e
    by_cases he : e.1 = i <;> simp [he, hf]
  rw [scrubD_map_comm _ hG acc1, scrubD_map_comm _ hG acc2, h]

theorem keyExists_congr (acc1 acc2 : List (String × VesselSchedule)) (i : String)
    (hk : List.map Prod.fst acc1 = List.map Prod.fst acc2) :
    keyExists acc1 i = keyExists acc2 i := by
  cases hb : keyExists acc2 i with
  | true => exact (keyExists_iff acc1 i).mpr (hk ▸ (keyExists_iff acc2 i).mp hb)
  | false =>
    cases hb1 : keyExists acc1 i with
    | false => rfl
    | true =>
      have hmem := (keyExists_iff acc1 i).mp hb1
      rw [hk] at hmem
      rw [(keyExists_iff acc2 i).mpr hmem] at hb
      cases hb

theorem stepSolicitacao_congr (env1 env2 : Env)
    (hp : Env.parse env1 = Env.parse env2) (i : String) (p : PraticagemRecord)
    (acc1 acc2 : List (String × VesselSchedule)) (h : scrubD acc1 = scrubD acc2) :
    Except.map scrubD (stepSolicitacao env1 i p acc1)
      = Except.map scrubD (stepSolicitacao env2 i p acc2) := by
  unfold stepSolicitacao
  cases hpd : PraticagemRecord.dataSolicitacao p with
  | none => simp [Except.map, h]
  | some s =>
    dsimp only
    by_cases hs : (s != "") = true
    · rw [if_pos hs, if_pos hs, parseTs_congr env1 env2 hp s]
      cases hq : parseTs env2 s with
      | ok q =>
        simp only [Except.map]
        rw [scrubD_updateEntry i
          (fun v => { v with eta := { v.eta with registrado := some q } })
          (fun v => rfl) acc1 acc2 h]
      | error e => rfl
    · rw [if_neg hs, if_neg hs]
      simp [Except.map, h]

theorem stepExecucao_congr (env1 env2 : Env)
    (hp : Env.parse env1 = Env.parse env2) (i : String) (p : PraticagemRecord)
    (acc1 acc2 : List (String × VesselSchedule)) (h : scrubD acc1 = scrubD acc2) :
    Except.map scrubD (stepExecucao env1 i p acc1)
      = Except.map scrubD (stepExecucao env2 i p acc2) := by
  unfold stepExecucao
  cases hpd : PraticagemRecord.dataExecucao p with
  | none => simp [Except.map, h]
  | some s =>
    dsimp only
    by_cases hs : (s != "") = true
    · rw [if_pos hs, if_pos hs]
      by_cases he : PraticagemRecord.manobraTipo p = some ("entrada")
      · rw [if_pos he, if_pos he, parseTs_congr env1 env2 hp s]
        cases hq : parseTs env2 s with
        | ok q =>
          simp only [Except.map]
          rw [scrubD_updateEntry i (fun v => { v with ata := some q })
            (fun v => rfl) acc1 acc2 h]
        | error e => rfl
      · rw [if_neg he, if_neg he]
        by_cases hx : PraticagemRecord.manobraTipo p = some ("saida")
        · rw [if_pos hx, if_pos hx, parseTs_congr env1 env2 hp s]
          cases hq : parseTs env2 s with
          | ok q =>
            simp only [Except.map]
            rw [scrubD_updateEntry i (fun v => { v with atd := some q })
              (fun v => rfl) acc1 acc2 h]
          | error e => rfl
        · rw [if_neg hx, if_neg hx]
          simp [Except.map, h]
    · rw [if_neg hs, if_neg hs]
      simp [Except.map, h]

theorem stepIntercorrencia_congr (i : String) (p : PraticagemRecord)
    (acc1 acc2 : List (String × VesselSchedule)) (h : scrubD acc1 = scrubD acc2) :
    scrubD (stepIntercorrencia i p acc1) = scrubD (stepIntercorrencia i p acc2) := by
  unfold stepIntercorrencia
  cases hpd : PraticagemRecord.motivoIntercorrencia p with
  | none => exact h
  | some s =>
    dsimp only
    by_cases hs : (s != "") = true
    · rw [if_pos hs, if_pos hs]
      exact scrubD_updateEntry i (fun v => { v with intercorrencias := some s })
        (fun v => rfl) acc1 acc2 h
    · rw [if_neg hs, if_neg hs]
      exact h

theorem applyPraticagem_congr (env1 env2 : Env)
    (hp : Env.parse env1 = Env.parse env2) (p : PraticagemRecord)
    (acc1 acc2 : List (String × VesselSchedule)) (h : scrubD acc1 = scrubD acc2) :
    Except.map scrubD (applyPraticagem env1 acc1 p)
      = Except.map scrubD (applyPraticagem env2 acc2 p) := by
  unfold applyPraticagem
  cases hpd : PraticagemRecord.identificadorNavio p with
  | none => simp [Except.map, h]
  | some i =>
    dsimp only
    have hkk : keyExists acc1 i = keyExists acc2 i :=
      keyExists_congr acc1 acc2 i (by rw [← scrubD_keys acc1, h, scrubD_keys])
    rw [hkk]
    by_cases hb : keyExists acc2 i = true
    · rw [if_pos hb, if_pos hb]
      have h1 := stepSolicitacao_congr env1 env2 hp i p acc1 acc2 h
      rcases exceptMap_elim scrubD _ _ h1 with ⟨x, y, hx, hy, hxy⟩ | ⟨e, hx, hy⟩
      · rw [hx, hy]
        dsimp only
        have h2 := stepExecucao_congr env1 env2 hp i p x y hxy
        rcases exceptMap_elim scrubD _ _ h2 with ⟨x2, y2, hx2, hy2, hxy2⟩ | ⟨e, hx2, hy2⟩
        · rw [hx2, hy2]
          simp only [Except.map]
          rw [stepIntercorrencia_congr i p x2 y2 hxy2]
        · rw [hx2, hy2]
      · rw [hx, hy]
    · rw [if_neg hb, if_neg hb]
      simp [Except.map, h]

theorem processPraticagem_congr (env1 env2 : Env)
    (hp : Env.parse env1 = Env.parse env2) (ps : List PraticagemRecord) :
    ∀ acc1 acc2, scrubD acc1 = scrubD acc2 →
      Except.map scrubD (processPraticagem env1 acc1 ps)
        = Except.map scrubD (processPraticagem env2 acc2 ps) := by
  induction ps with
  | nil =>
    intro acc1 acc2 h
    simp [processPraticagem, Except.map, h]
  | cons p rest ih =>
    intro acc1 acc2 h
    rw [processPraticagem, processPraticagem]
    have h1 := applyPraticagem_congr env1 env2 hp p acc1 acc2 h
    rcases exceptMap_elim scrubD _ _ h1 with ⟨x, y, hx, hy, hxy⟩ | ⟨e, hx, hy⟩
    · rw [hx, hy]
      exact ih x y hxy
    · rw [hx, hy]

/-- C9 (amended): consolidation is deterministic given the same external
timestamp parser and string-hash seed — the outputs of two runs on
identical feeds agree on every field once the auto-generated uuid and
creation/update instants are erased (and the two runs fail identically
when a parse fails). -/
theorem c9_consolidate_deterministic (env1 env2 : Env)
    (hp : Env.parse env1 = Env.parse env2) (hh : Env.strHash env1 = Env.strHash env2)
    (ag : List AgenciaRecord) (pr : List PraticagemRecord)
    (t : List TerminalRecord) (au : List AutoridadeRecord) :
    Except.map (List.map scrub) (consolidate_vessel_data env1 ag pr t au)
      = Except.map (List.map scrub) (consolidate_vessel_data env2 ag pr t au) := by
  unfold consolidate_vessel_data
  have h1 := processTerminal_congr env1 env2 hp t 0 0 [] [] rfl
  rcases exceptMap_elim scrubD _ _ h1 with ⟨d1, d1', hd1, hd1', hde⟩ | ⟨e, hd1, hd1'⟩
  · rw [hd1, hd1']
    dsimp only
    have h4 := processPraticagem_congr env1 env2 hp pr
      (applyMarine env1 (processAgencia d1 ag)) (applyMarine env2 (processAgencia d1' ag))
      (applyMarine_congr env1 env2 hh _ _ (processAgencia_congr ag d1 d1' hde))
    rcases exceptMap_elim scrubD _ _ h4 with ⟨d4, d4', hd4, hd4', hde4⟩ | ⟨e, hd4, hd4'⟩
    · rw [hd4, hd4']
      simp only [Except.map]
      have : List.map scrub (d4.map Prod.snd) = List.map scrub (d4'.map Prod.snd) := by
        have h5 := congrArg (List.map Prod.snd) hde4
        unfold scrubD at h5
        rw [List.map_map, List.map_map] at h5
        rw [List.map_map, List.map_map]
        exact h5
      rw [this]
    · rw [hd4, hd4']
  · rw [hd1, hd1']

/-- First run environment: uuid supply "A-n", clock 0, hash seed giving 1. -/
def envA : Env :=
  { freshId := fun n => ("A-") ++ toString n
    now := 0
    parse := fun _ => none
    strHash := fun _ => 1 }

/-- Second run environment: fresh uuids and a later clock, same parser
and hash seed as `envA`. -/
def envA2 : Env :=
  { freshId := fun n => ("B-") ++ toString n
    now := 5
    parse := fun _ => none
    strHash := fun _ => 1 }

/-- Third run environment: like `envA2` but a different hash seed
(a Python interpreter started with another `PYTHONHASHSEED`). -/
def envB : Env :=
  { freshId := fun n => ("B-") ++ toString n
    now := 5
    parse := fun _ => none
    strHash := fun _ => 2 }

/-- A terminal feed naming a vessel of the hard-coded MarineTraffic table,
so that the hash-derived coordinates are populated. -/
def c9T : List TerminalRecord := [{ identificadorNavio := some ("MSC-SANTOS-001") }]

def c9LatA : ℚ := (-23.9534 : ℚ) + ((((1 : Int) : ℚ) - 50) * (0.01 : ℚ))

def c9LatB : ℚ := (-23.9534 : ℚ) + ((((2 : Int) : ℚ) - 50) * (0.01 : ℚ))

/-- Witness for the amended C9: two runs differing only in uuid supply and
clock agree after scrubbing the auto-generated fields. -/
theorem c9_consolidate_deterministic_witness :
    Except.map (List.map scrub) (consolidate_vessel_data envA [] [] c9T [])
      = Except.map (List.map scrub) (consolidate_vessel_data envA2 [] [] c9T []) :=
  c9_consolidate_deterministic envA envA2 rfl rfl [] [] c9T []

/-- C9 counterexample to the original claim: on identical feeds, two runs
also differ in the auto-generated uuid `id` field, and two runs under
different string-hash seeds differ in the hash-derived `latitude` — both
fields beyond the claim's "auto-generated creation timestamps". -/
theorem c9_auto_fields_counterexample :
    Except.map (List.map fun v => v.id) (consolidate_vessel_data envA [] [] c9T [])
        = Except.ok [("A-0")]
    ∧ Except.map (List.map fun v => v.id) (consolidate_vessel_data envB [] [] c9T [])
        = Except.ok [("B-0")]
    ∧ Except.map (List.map fun v => v.latitude) (consolidate_vessel_data envA [] [] c9T [])
        = Except.ok [some c9LatA]
    ∧ Except.map (List.map fun v => v.latitude) (consolidate_vessel_data envB [] [] c9T [])
        = Except.ok [some c9LatB]
    ∧ ("A-0" : String) ≠ ("B-0")
    ∧ c9LatA ≠ c9LatB := by
  refine ⟨rfl, rfl, rfl, rfl, by decide, ?_⟩
  unfold c9LatA c9LatB
  norm_num
